import Mathlib

/-
Verification of the InfluxQL recursive-descent parser (influxql/parser.go).

The parser proper is embedded token-by-token from src/influxql/parser.go as
pure functions over an explicit token stream (a list of scanned triples), with
fuel for the source loops.  The lexical layer (scanner.go / token.go) and the
AST declarations (ast.go) are not part of the source tree; they are modelled
from the specification where needed and marked as such.
-/

set_option maxRecDepth 10000

namespace InfluxQL

/-- Source position, zero-based line and character (parser.go uses Pos from the
scanner; the parser only threads it into errors). -/
structure Pos where
  line : Nat
  char : Nat
deriving DecidableEq, Repr

/-- Modelled from the spec: the closed token enumeration of token.go (not under
src/): structural tokens, literal kinds, operators, punctuation and the
reserved keywords used by the grammar. -/
inductive Token where
  | ILLEGAL | EOF | WS
  | IDENT | NUMBER | DURATION_VAL | STRING | REGEX
  | ADD | SUB | MUL | DIV
  | AND | OR
  | EQ | NEQ | LT | LTE | GT | GTE
  | LPAREN | RPAREN | COMMA | SEMICOLON | DOT
  | TRUE | FALSE
  | ALL | ALTER | AS | ASC | BEGIN | BY
  | CONTINUOUS | CREATE | DATABASE | DATABASES | DEFAULT | DELETE | DESC
  | DROP | DURATION | END | FIELD | FROM | GRANT | GROUP
  | IN | INTO | KEY | KEYS | LIMIT | MEASUREMENT | MEASUREMENTS
  | OFFSET | ON | ORDER | PASSWORD | POLICY | POLICIES | PRIVILEGES
  | QUERIES | QUERY | READ | REPLICATION | RETENTION | REVOKE
  | SELECT | SERIES | SHOW | TAG | TO | USER | USERS
  | VALUES | WHERE | WITH | WRITE
deriving DecidableEq, Repr

/-- Modelled from the spec: Token.Precedence (token.go is not under src/).
MUL, DIV = 4; ADD, SUB = 3; comparisons = 2; AND = OR = 1; all else 0. -/
def Token.precedence : Token → Nat
  | .OR => 1
  | .AND => 1
  | .EQ | .NEQ | .LT | .LTE | .GT | .GTE => 2
  | .ADD | .SUB => 3
  | .MUL | .DIV => 4
  | _ => 0

/-- Modelled from the spec: Token.isOperator (token.go is not under src/):
exactly the binary operator tokens. -/
def Token.isOperator : Token → Bool
  | .ADD | .SUB | .MUL | .DIV
  | .AND | .OR
  | .EQ | .NEQ | .LT | .LTE | .GT | .GTE => true
  | _ => false

/-- Modelled from the spec: Token.String (token.go is not under src/), the
printable name of each token, used by tokstr and in expected-token lists. -/
def Token.str : Token → String
  | .ILLEGAL => "ILLEGAL"
  | .EOF => "EOF"
  | .WS => "WS"
  | .IDENT => "IDENT"
  | .NUMBER => "NUMBER"
  | .DURATION_VAL => "DURATIONVAL"
  | .STRING => "STRING"
  | .REGEX => "REGEX"
  | .ADD => "+"
  | .SUB => "-"
  | .MUL => "*"
  | .DIV => "/"
  | .AND => "AND"
  | .OR => "OR"
  | .EQ => "="
  | .NEQ => "!="
  | .LT => "<"
  | .LTE => "<="
  | .GT => ">"
  | .GTE => ">="
  | .LPAREN => "("
  | .RPAREN => ")"
  | .COMMA => ","
  | .SEMICOLON => ";"
  | .DOT => "."
  | .TRUE => "TRUE"
  | .FALSE => "FALSE"
  | .ALL => "ALL"
  | .ALTER => "ALTER"
  | .AS => "AS"
  | .ASC => "ASC"
  | .BEGIN => "BEGIN"
  | .BY => "BY"
  | .CONTINUOUS => "CONTINUOUS"
  | .CREATE => "CREATE"
  | .DATABASE => "DATABASE"
  | .DATABASES => "DATABASES"
  | .DEFAULT => "DEFAULT"
  | .DELETE => "DELETE"
  | .DESC => "DESC"
  | .DROP => "DROP"
  | .DURATION => "DURATION"
  | .END => "END"
  | .FIELD => "FIELD"
  | .FROM => "FROM"
  | .GRANT => "GRANT"
  | .GROUP => "GROUP"
  | .IN => "IN"
  | .INTO => "INTO"
  | .KEY => "KEY"
  | .KEYS => "KEYS"
  | .LIMIT => "LIMIT"
  | .MEASUREMENT => "MEASUREMENT"
  | .MEASUREMENTS => "MEASUREMENTS"
  | .OFFSET => "OFFSET"
  | .ON => "ON"
  | .ORDER => "ORDER"
  | .PASSWORD => "PASSWORD"
  | .POLICY => "POLICY"
  | .POLICIES => "POLICIES"
  | .PRIVILEGES => "PRIVILEGES"
  | .QUERIES => "QUERIES"
  | .QUERY => "QUERY"
  | .READ => "READ"
  | .REPLICATION => "REPLICATION"
  | .RETENTION => "RETENTION"
  | .REVOKE => "REVOKE"
  | .SELECT => "SELECT"
  | .SERIES => "SERIES"
  | .SHOW => "SHOW"
  | .TAG => "TAG"
  | .TO => "TO"
  | .USER => "USER"
  | .USERS => "USERS"
  | .VALUES => "VALUES"
  | .WHERE => "WHERE"
  | .WITH => "WITH"
  | .WRITE => "WRITE"

/-- A scanned triple (Token, Pos, Literal), as produced by the scanner and
consumed by the parser. -/
structure Tok where
  tok : Token
  pos : Pos
  lit : String
deriving DecidableEq, Repr

/-- ParseError represents an error that occurred during parsing
(parser.go lines 1753-1759). -/
structure ParseError where
  message : String := ""
  found : String := ""
  expected : List String := []
  pos : Pos := ⟨0, 0⟩
deriving DecidableEq, Repr

/-- newParseError returns a new instance of ParseError (parser.go 1762-1764). -/
def newParseError (found : String) (expected : List String) (pos : Pos) : ParseError :=
  { found := found, expected := expected, pos := pos }

/-- Modelled from the spec: the tokstr helper of token.go (not under src/):
the literal when one is attached, else the token name. -/
def tokstr (tok : Token) (lit : String) : String :=
  if lit ≠ "" then lit else tok.str

/-- Whether a character is an ASCII decimal digit. -/
def isDigitChar (c : Char) : Bool :=
  '0' ≤ c && c ≤ '9'

/-- Numeric value of an ASCII digit character, if it is one. -/
def digitVal (c : Char) : Option Nat :=
  if isDigitChar c then some (c.toNat - 48) else none

/-- The ASCII digit character for a value below ten. -/
def digitChar : Nat → Char
  | 0 => '0'
  | 1 => '1'
  | 2 => '2'
  | 3 => '3'
  | 4 => '4'
  | 5 => '5'
  | 6 => '6'
  | 7 => '7'
  | 8 => '8'
  | _ => '9'

/-- Decimal digits of a natural number, most significant first.  The fuel only
serves termination; it is always called with fuel at least the value. -/
def natDigits : Nat → Nat → List Char
  | 0, _ => []
  | fuel + 1, n =>
    if n < 10 then [digitChar n] else natDigits fuel (n / 10) ++ [digitChar (n % 10)]

/-- Decimal rendering of a natural number (the digits of fmt %d in Go). -/
def natRepr (n : Nat) : String :=
  ⟨natDigits (n + 1) n⟩

/-- Decimal rendering of an integer (fmt %d in Go). -/
def intRepr (i : Int) : String :=
  if i < 0 then "-" ++ natRepr (-i).toNat else natRepr i.toNat

/-- Left fold of decimal digits onto an accumulator; none on a non-digit. -/
def parseNatAux : List Char → Nat → Option Nat
  | [], acc => some acc
  | c :: cs, acc =>
    match digitVal c with
    | some d => parseNatAux cs (10 * acc + d)
    | none => none

/-- Result of the Go strconv integer parsers: a value, a range overflow (which
in Go also reports the clamped value), or a syntax error. -/
inductive IntScan where
  | ok (n : Int)
  | rangeOver (clamp : Int)
  | bad
deriving DecidableEq, Repr

/-- Largest signed 64-bit integer. -/
def maxInt64 : Int := 9223372036854775807

/-- Modelled from the spec: strconv.ParseInt(s, 10, 64) (and Atoi) of the Go
standard library: optional sign, decimal digits, 64-bit range check; a range
overflow yields the clamped extreme together with the error. -/
def goParseInt (s : String) : IntScan :=
  match s.data with
  | [] => .bad
  | c :: rest =>
    if c = '-' then
      if rest = [] then .bad
      else
        match parseNatAux rest 0 with
        | none => .bad
        | some v =>
          if (v : Int) ≤ maxInt64 + 1 then .ok (-(v : Int)) else .rangeOver (-(maxInt64 + 1))
    else if c = '+' then
      if rest = [] then .bad
      else
        match parseNatAux rest 0 with
        | none => .bad
        | some v => if (v : Int) ≤ maxInt64 then .ok (v : Int) else .rangeOver maxInt64
    else
      match parseNatAux (c :: rest) 0 with
      | none => .bad
      | some v => if (v : Int) ≤ maxInt64 then .ok (v : Int) else .rangeOver maxInt64

/-- Modelled from the spec: strconv.ParseUint(s, 10, 32) of the Go standard
library: decimal digits only, 32-bit unsigned range; none on any error. -/
def goParseUint32 (s : String) : Option Nat :=
  match s.data with
  | [] => none
  | cs =>
    match parseNatAux cs 0 with
    | none => none
    | some v => if v ≤ 4294967295 then some v else none

/-- Modelled from the spec: the rendering of a strconv range/syntax error
(err.Error() strings that parseInt and parseUInt32 copy into ParseError). -/
def strconvErrMsg (fn : String) (lit : String) (reason : String) : String :=
  "strconv." ++ fn ++ ": parsing " ++ "\"" ++ lit ++ "\"" ++ ": " ++ reason

/-- Modelled from the spec: Measurement AST node (ast.go is not under src/). -/
structure Measurement where
  name : String
deriving DecidableEq, Repr

/-- Modelled from the spec: the Source variants Measurement, Join, Merge. -/
inductive Source where
  | meas (m : Measurement)
  | join (measurements : List Measurement)
  | merge (measurements : List Measurement)
deriving DecidableEq, Repr

/-- Modelled from the spec: the Expr variants (ast.go is not under src/).
NumberLiteral holds a float64 and TimeLiteral a time.Time in Go; here they
carry the source literal, which determines those values; no claim depends on
float or time arithmetic. -/
inductive Expr where
  | binary (lhs : Expr) (op : Token) (rhs : Expr)
  | paren (e : Expr)
  | call (name : String) (args : List Expr)
  | varRef (val : String)
  | wildcard
  | number (lit : String)
  | strLit (val : String)
  | boolLit (val : Bool)
  | timeLit (raw : String)
  | durationLit (val : Int)
  | regexLit (pattern : String)

/-- Modelled from the spec: Field with expression and alias. -/
structure Field where
  expr : Expr
  aliasName : String := ""

/-- Modelled from the spec: Dimension wraps an expression. -/
structure Dimension where
  expr : Expr

/-- Modelled from the spec: SortField with name and direction. -/
structure SortField where
  name : String := ""
  ascending : Bool := false
deriving DecidableEq, Repr

/-- Modelled from the spec: Target with measurement and optional database. -/
structure Target where
  measurement : String := ""
  database : String := ""
deriving DecidableEq, Repr

/-- Modelled from the spec: the Privilege enumeration. -/
inductive Privilege where
  | readPriv
  | writePriv
  | allPriv
deriving DecidableEq, Repr

/-- Modelled from the spec: SelectStatement fields; Limit and Offset default
to zero, optional members to none, lists to empty (Go zero values). -/
structure SelectStatement where
  fields : List Field := []
  target : Option Target := none
  source : Option Source := none
  condition : Option Expr := none
  dimensions : List Dimension := []
  sortFields : List SortField := []
  limit : Int := 0
  offset : Int := 0

/-- Modelled from the spec: DeleteStatement. -/
structure DeleteStatement where
  source : Option Source := none
  condition : Option Expr := none

/-- Modelled from the spec: ShowSeriesStatement. -/
structure ShowSeriesStatement where
  source : Option Source := none
  condition : Option Expr := none
  sortFields : List SortField := []
  limit : Int := 0
  offset : Int := 0

/-- Modelled from the spec: ShowMeasurementsStatement. -/
structure ShowMeasurementsStatement where
  condition : Option Expr := none
  sortFields : List SortField := []
  limit : Int := 0
  offset : Int := 0

/-- Modelled from the spec: ShowRetentionPoliciesStatement. -/
structure ShowRetentionPoliciesStatement where
  database : String := ""
deriving DecidableEq, Repr

/-- Modelled from the spec: ShowTagKeysStatement. -/
structure ShowTagKeysStatement where
  source : Option Source := none
  condition : Option Expr := none
  sortFields : List SortField := []
  limit : Int := 0
  offset : Int := 0

/-- Modelled from the spec: ShowTagValuesStatement. -/
structure ShowTagValuesStatement where
  source : Option Source := none
  tagKeys : List String := []
  condition : Option Expr := none
  sortFields : List SortField := []
  limit : Int := 0
  offset : Int := 0

/-- Modelled from the spec: ShowFieldKeysStatement. -/
structure ShowFieldKeysStatement where
  source : Option Source := none
  sortFields : List SortField := []
  limit : Int := 0
  offset : Int := 0

/-- Modelled from the spec: CreateRetentionPolicyStatement. -/
structure CreateRetentionPolicyStatement where
  name : String := ""
  database : String := ""
  duration : Int := 0
  replication : Int := 0
  isDefault : Bool := false
deriving DecidableEq, Repr

/-- Modelled from the spec: AlterRetentionPolicyStatement. -/
structure AlterRetentionPolicyStatement where
  name : String := ""
  database : String := ""
  duration : Option Int := none
  replication : Option Int := none
  isDefault : Bool := false
deriving DecidableEq, Repr

/-- Modelled from the spec: DropSeriesStatement; SeriesID is a uint32. -/
structure DropSeriesStatement where
  source : Option Source := none
  condition : Option Expr := none
  seriesID : Nat := 0

/-- Modelled from the spec: GrantStatement. -/
structure GrantStatement where
  privilege : Privilege := .readPriv
  onName : String := ""
  user : String := ""
deriving DecidableEq, Repr

/-- Modelled from the spec: RevokeStatement. -/
structure RevokeStatement where
  privilege : Privilege := .readPriv
  onName : String := ""
  user : String := ""
deriving DecidableEq, Repr

/-- Modelled from the spec: CreateDatabaseStatement. -/
structure CreateDatabaseStatement where
  name : String := ""
deriving DecidableEq, Repr

/-- Modelled from the spec: DropDatabaseStatement. -/
structure DropDatabaseStatement where
  name : String := ""
deriving DecidableEq, Repr

/-- Modelled from the spec: DropRetentionPolicyStatement. -/
structure DropRetentionPolicyStatement where
  name : String := ""
  database : String := ""
deriving DecidableEq, Repr

/-- Modelled from the spec: CreateUserStatement. -/
structure CreateUserStatement where
  name : String := ""
  password : String := ""
  privilege : Option Privilege := none
deriving DecidableEq, Repr

/-- Modelled from the spec: DropUserStatement. -/
structure DropUserStatement where
  name : String := ""
deriving DecidableEq, Repr

/-- Modelled from the spec: DropMeasurementStatement. -/
structure DropMeasurementStatement where
  name : String := ""
deriving DecidableEq, Repr

/-- Modelled from the spec: CreateContinuousQueryStatement. -/
structure CreateContinuousQueryStatement where
  name : String := ""
  database : String := ""
  source : SelectStatement := {}

/-- Modelled from the spec: DropContinuousQueryStatement. -/
structure DropContinuousQueryStatement where
  name : String := ""
deriving DecidableEq, Repr

/-- Modelled from the spec: the Statement sum type, one variant per command. -/
inductive Statement where
  | select (s : SelectStatement)
  | delete (s : DeleteStatement)
  | showSeries (s : ShowSeriesStatement)
  | showMeasurements (s : ShowMeasurementsStatement)
  | showRetentionPolicies (s : ShowRetentionPoliciesStatement)
  | showTagKeys (s : ShowTagKeysStatement)
  | showTagValues (s : ShowTagValuesStatement)
  | showFieldKeys (s : ShowFieldKeysStatement)
  | showContinuousQueries
  | showDatabases
  | showUsers
  | createRetentionPolicy (s : CreateRetentionPolicyStatement)
  | alterRetentionPolicy (s : AlterRetentionPolicyStatement)
  | dropSeries (s : DropSeriesStatement)
  | grant (s : GrantStatement)
  | revoke (s : RevokeStatement)
  | createDatabase (s : CreateDatabaseStatement)
  | dropDatabase (s : DropDatabaseStatement)
  | dropRetentionPolicy (s : DropRetentionPolicyStatement)
  | createUser (s : CreateUserStatement)
  | dropUser (s : DropUserStatement)
  | dropMeasurement (s : DropMeasurementStatement)
  | createContinuousQuery (s : CreateContinuousQueryStatement)
  | dropContinuousQuery (s : DropContinuousQueryStatement)

/-- Modelled from the spec: a Query is an ordered sequence of statements. -/
structure Query where
  statements : List Statement := []

/-- One microsecond in nanoseconds (time.Microsecond). -/
def microsecond : Int := 1000

/-- One millisecond in nanoseconds (time.Millisecond). -/
def millisecond : Int := 1000000

/-- One second in nanoseconds (time.Second). -/
def second : Int := 1000000000

/-- One minute in nanoseconds (time.Minute). -/
def minute : Int := 60000000000

/-- One hour in nanoseconds (time.Hour). -/
def hour : Int := 3600000000000

/-- Whether the last two characters of a list are the given pair: the model
of the byte test s[len(s)-2:] == "ms" of parser.go line 1649 (every unit
marker involved is a single ASCII byte). -/
def lastTwoIs (cs : List Char) (a b : Char) : Bool :=
  match cs.reverse with
  | y :: x :: _ => x == a && y == b
  | _ => false

/-- ParseDuration parses a time duration from a string
(parser.go 1624-1680); durations are int64 nanosecond counts. -/
def ParseDuration (s : String) : Except Unit Int :=
  if s.data.length = 0 then .error ()
  else if s.data.length = 1 then
    match goParseInt s with
    | .ok n => .ok (n * microsecond)
    | _ => .error ()
  else
    match
      (if isDigitChar (s.data.getLastD ' ') then (s, "u")
       else if 2 < s.data.length && lastTwoIs s.data 'm' 's' then
         ((⟨s.data.dropLast.dropLast⟩ : String), "ms")
       else ((⟨s.data.dropLast⟩ : String), (⟨[s.data.getLastD ' ']⟩ : String))) with
    | (num, uom) =>
      match goParseInt num with
      | .ok n =>
        if uom = "u" ∨ uom = "µ" then .ok (n * microsecond)
        else if uom = "ms" then .ok (n * millisecond)
        else if uom = "s" then .ok (n * second)
        else if uom = "m" then .ok (n * minute)
        else if uom = "h" then .ok (n * hour)
        else if uom = "d" then .ok (n * (24 * hour))
        else if uom = "w" then .ok (n * (7 * 24 * hour))
        else .error ()
      | _ => .error ()

/-- FormatDuration formats a duration to a string (parser.go 1682-1700); Go
integer division and remainder truncate toward zero (Int.tdiv, Int.tmod). -/
def FormatDuration (d : Int) : String :=
  if d = 0 then "0s"
  else if d.tmod (7 * 24 * hour) = 0 then intRepr (d.tdiv (7 * 24 * hour)) ++ "w"
  else if d.tmod (24 * hour) = 0 then intRepr (d.tdiv (24 * hour)) ++ "d"
  else if d.tmod hour = 0 then intRepr (d.tdiv hour) ++ "h"
  else if d.tmod minute = 0 then intRepr (d.tdiv minute) ++ "m"
  else if d.tmod second = 0 then intRepr (d.tdiv second) ++ "s"
  else if d.tmod millisecond = 0 then intRepr (d.tdiv millisecond) ++ "ms"
  else intRepr (d.tdiv microsecond)

/-- strings.Contains of the Go standard library, over the character list. -/
def containsChar (s : String) (c : Char) : Bool :=
  s.data.contains c

/-- Lower-casing of an ASCII letter. -/
def lowerChar (c : Char) : Char :=
  if 'A' ≤ c && c ≤ 'Z' then Char.ofNat (c.toNat + 32) else c

/-- Upper-casing of an ASCII letter. -/
def upperChar (c : Char) : Char :=
  if 'a' ≤ c && c ≤ 'z' then Char.ofNat (c.toNat - 32) else c

/-- strings.ToLower of the Go standard library, over ASCII letters. -/
def strToLower (s : String) : String :=
  ⟨s.data.map lowerChar⟩

/-- strings.ToUpper of the Go standard library, over ASCII letters. -/
def strToUpper (s : String) : String :=
  ⟨s.data.map upperChar⟩

/-- The Scan result at end of stream: the scanner keeps returning EOF. -/
def eofTok : Tok := ⟨.EOF, ⟨0, 0⟩, ""⟩

/-- scan returns the next token from the underlying scanner (parser.go 1603).
The buffered scanner is modelled by threading the remaining token list;
unscanning a token t with rest ts is re-forming the list t :: ts. -/
def scan : List Tok → Tok × List Tok
  | [] => (eofTok, [])
  | t :: ts => (t, ts)

/-- scanIgnoreWhitespace scans the next non-whitespace token
(parser.go 1606-1612): scan once, and scan again if the token was WS.  Note
that an unscan after this restores only the last token; a skipped WS token
stays consumed, exactly as with the one-slot pushback buffer. -/
def scanIgnoreWhitespace (ts : List Tok) : Tok × List Tok :=
  match scan ts with
  | (t, ts1) => if t.tok = .WS then scan ts1 else (t, ts1)

/-- consumeWhitespace scans the next token if it is whitespace
(parser.go 1615-1619). -/
def consumeWhitespace (ts : List Tok) : List Tok :=
  match scan ts with
  | (t, ts1) => if t.tok = .WS then ts1 else ts

/-- Sequencing of fallible parsing steps: Go early-return on error. -/
def pbind {α β : Type} (m : Except ParseError (α × List Tok))
    (f : α → List Tok → Except ParseError (β × List Tok)) :
    Except ParseError (β × List Tok) :=
  match m with
  | .error e => .error e
  | .ok (a, ts) => f a ts

/-- Error reported when the modelling fuel of a source loop runs out; the
wrappers always pass fuel exceeding the token count, so this is unreachable
on the inputs evaluated here. -/
def fuelError : ParseError := { message := "model: recursion fuel exhausted" }

/-- parseInt parses a string and returns an integer literal
(parser.go 309-333); the bounds come in as min and max. -/
def parseInt (lo hi : Int) (ts : List Tok) : Except ParseError (Int × List Tok) :=
  match scanIgnoreWhitespace ts with
  | (t, ts1) =>
    if t.tok ≠ .NUMBER then .error (newParseError (tokstr t.tok t.lit) ["number"] t.pos)
    else if containsChar t.lit '.' then
      .error { message := "number must be an integer", pos := t.pos }
    else
      match goParseInt t.lit with
      | .ok n =>
        if lo > n ∨ n > hi then
          .error { message := "invalid value " ++ intRepr n ++ ": must be " ++ intRepr lo ++
                     " <= n <= " ++ intRepr hi, pos := t.pos }
        else .ok (n, ts1)
      | .rangeOver _ => .error { message := strconvErrMsg "Atoi" t.lit "value out of range", pos := t.pos }
      | .bad => .error { message := strconvErrMsg "Atoi" t.lit "invalid syntax", pos := t.pos }

/-- parseUInt32 parses a string and returns a 32-bit unsigned integer literal
(parser.go 335-349). -/
def parseUInt32 (ts : List Tok) : Except ParseError (Nat × List Tok) :=
  match scanIgnoreWhitespace ts with
  | (t, ts1) =>
    if t.tok ≠ .NUMBER then .error (newParseError (tokstr t.tok t.lit) ["number"] t.pos)
    else
      match goParseUint32 t.lit with
      | some n => .ok (n, ts1)
      | none => .error { message := strconvErrMsg "ParseUint" t.lit "value out of range", pos := t.pos }

/-- parseDuration parses a duration literal token (parser.go 351-364). -/
def parseDuration (ts : List Tok) : Except ParseError (Int × List Tok) :=
  match scanIgnoreWhitespace ts with
  | (t, ts1) =>
    if t.tok ≠ .DURATION_VAL then .error (newParseError (tokstr t.tok t.lit) ["duration"] t.pos)
    else
      match ParseDuration t.lit with
      | .ok d => .ok (d, ts1)
      | .error _ => .error { message := "invalid duration", pos := t.pos }

/-- parseIdent parses an identifier (parser.go 366-373). -/
def parseIdent (ts : List Tok) : Except ParseError (String × List Tok) :=
  match scanIgnoreWhitespace ts with
  | (t, ts1) =>
    if t.tok ≠ .IDENT then .error (newParseError (tokstr t.tok t.lit) ["identifier"] t.pos)
    else .ok (t.lit, ts1)

/-- parseString parses a string literal token (parser.go 399-406). -/
def parseString (ts : List Tok) : Except ParseError (String × List Tok) :=
  match scanIgnoreWhitespace ts with
  | (t, ts1) =>
    if t.tok ≠ .STRING then .error (newParseError (tokstr t.tok t.lit) ["string"] t.pos)
    else .ok (t.lit, ts1)

/-- parseTokens consumes an expected sequence of tokens (parser.go 1702-1710). -/
def parseTokens : List Token → List Tok → Except ParseError (Unit × List Tok)
  | [], ts => .ok ((), ts)
  | expTok :: rest, ts =>
    match scanIgnoreWhitespace ts with
    | (t, ts1) =>
      if t.tok ≠ expTok then .error (newParseError (tokstr t.tok t.lit) [expTok.str] t.pos)
      else parseTokens rest ts1

/-- The integer value strconv.ParseInt reports when its error is discarded:
the parsed value, or the clamped extreme on a range error, or zero
(parser.go 1371 discards the error exactly so). -/
def parseIntValue : IntScan → Int
  | .ok n => n
  | .rangeOver c => c
  | .bad => 0

/-- parseOptionalTokenAndInt parses the given keyword followed by an integer,
if the keyword is present (parser.go 1349-1379).  The strconv.ParseInt error
is discarded, keeping the (possibly clamped) value, exactly as in the source. -/
def parseOptionalTokenAndInt (t : Token) (ts : List Tok) : Except ParseError (Int × List Tok) :=
  match scanIgnoreWhitespace ts with
  | (t0, ts1) =>
    if t0.tok ≠ t then .ok (0, t0 :: ts1)
    else
      match scanIgnoreWhitespace ts1 with
      | (t1, ts2) =>
        if t1.tok ≠ .NUMBER then .error (newParseError (tokstr t1.tok t1.lit) ["number"] t1.pos)
        else if containsChar t1.lit '.' then
          .error { message := "fractional parts not allowed in " ++ t.str, pos := t1.pos }
        else if parseIntValue (goParseInt t1.lit) < 1 then
          .error { message := t.str ++ " must be > 0", pos := t1.pos }
        else .ok (parseIntValue (goParseInt t1.lit), ts2)

/-- parsePrivilege parses a privilege (parser.go 496-513). -/
def parsePrivilege (ts : List Tok) : Except ParseError (Privilege × List Tok) :=
  match scanIgnoreWhitespace ts with
  | (t, ts1) =>
    match t.tok with
    | .READ => .ok (.readPriv, ts1)
    | .WRITE => .ok (.writePriv, ts1)
    | .ALL =>
      match scanIgnoreWhitespace ts1 with
      | (t2, ts2) => if t2.tok ≠ .PRIVILEGES then .ok (.allPriv, t2 :: ts2) else .ok (.allPriv, ts2)
    | _ => .error (newParseError (tokstr t.tok t.lit) ["READ", "WRITE", "ALL [PRIVILEGES]"] t.pos)

/-- parseSortField parses one field of an ORDER BY clause (parser.go 1434-1455). -/
def parseSortField (ts : List Tok) : Except ParseError (SortField × List Tok) :=
  match scanIgnoreWhitespace ts with
  | (t, ts1) =>
    if t.tok = .IDENT ∨ t.tok = .STRING then
      match scanIgnoreWhitespace ts1 with
      | (t2, ts2) =>
        if t2.tok ≠ .ASC ∧ t2.tok ≠ .DESC then .ok ({ name := t.lit }, t2 :: ts2)
        else .ok ({ name := t.lit, ascending := t2.tok = .ASC }, ts2)
    else if t.tok ≠ .ASC ∧ t.tok ≠ .DESC then
      .error (newParseError (tokstr t.tok t.lit) ["identifier, ASC, or DESC"] t.pos)
    else .ok ({ ascending := t.tok = .ASC }, ts1)

/-- Loop of parseSortFields over the optional comma-separated tail
(parser.go 1414-1429). -/
def parseSortFieldsLoop : Nat → List SortField → List Tok → Except ParseError (List SortField × List Tok)
  | 0, _, _ => .error fuelError
  | fuel + 1, acc, ts =>
    match scanIgnoreWhitespace ts with
    | (t, ts1) =>
      if t.tok ≠ .COMMA then .ok (acc, t :: ts1)
      else pbind (parseSortField ts1) fun f ts2 => parseSortFieldsLoop fuel (acc ++ [f]) ts2

/-- parseSortFields parses all fields of an ORDER BY clause (parser.go 1403-1432). -/
def parseSortFields (fuel : Nat) (ts : List Tok) : Except ParseError (List SortField × List Tok) :=
  pbind (parseSortField ts) fun f ts1 => parseSortFieldsLoop fuel [f] ts1

/-- parseOrderBy parses the ORDER BY clause, if it exists (parser.go 1381-1401). -/
def parseOrderBy (fuel : Nat) (ts : List Tok) : Except ParseError (List SortField × List Tok) :=
  match scanIgnoreWhitespace ts with
  | (t, ts1) =>
    if t.tok ≠ .ORDER then .ok ([], t :: ts1)
    else
      match scanIgnoreWhitespace ts1 with
      | (t2, ts2) =>
        if t2.tok ≠ .BY then .error (newParseError (tokstr t2.tok t2.lit) ["BY"] t2.pos)
        else parseSortFields fuel ts2

/-- Loop of parseIdentList over the optional comma-separated tail
(parser.go 384-396). -/
def parseIdentListLoop : Nat → List String → List Tok → Except ParseError (List String × List Tok)
  | 0, _, _ => .error fuelError
  | fuel + 1, acc, ts =>
    match scanIgnoreWhitespace ts with
    | (t, ts1) =>
      if t.tok ≠ .COMMA then .ok (acc, t :: ts1)
      else pbind (parseIdent ts1) fun i ts2 => parseIdentListLoop fuel (acc ++ [i]) ts2

/-- parseIdentList parses a comma delimited list of identifiers
(parser.go 375-397). -/
def parseIdentList (fuel : Nat) (ts : List Tok) : Except ParseError (List String × List Tok) :=
  pbind (parseIdent ts) fun i ts1 => parseIdentListLoop fuel [i] ts1

/-- Measurement-list loop of parseSource (parser.go 1256-1271); note the raw
scan, not scanIgnoreWhitespace, for the comma lookahead. -/
def parseSourceMeasurements : Nat → List Measurement → List Tok → Except ParseError (List Measurement × List Tok)
  | 0, _, _ => .error fuelError
  | fuel + 1, acc, ts =>
    match scanIgnoreWhitespace ts with
    | (t, ts1) =>
      if t.tok ≠ .IDENT then .error (newParseError (tokstr t.tok t.lit) ["measurement name"] t.pos)
      else
        let acc := acc ++ [Measurement.mk t.lit]
        match scan ts1 with
        | (c, ts2) =>
          if c.tok ≠ .COMMA then .ok (acc, c :: ts2)
          else parseSourceMeasurements fuel acc ts2

/-- parseSource parses the FROM clause of a query (parser.go 1236-1283); note
the raw scan used to decide whether the identifier is a join or merge call. -/
def parseSource (fuel : Nat) (ts : List Tok) : Except ParseError (Source × List Tok) :=
  match scanIgnoreWhitespace ts with
  | (t, ts1) =>
    if t.tok ≠ .IDENT then .error (newParseError (tokstr t.tok t.lit) ["identifier"] t.pos)
    else
      match scan ts1 with
      | (next, ts2) =>
        if t.tok = .STRING ∨ (t.tok = .IDENT ∧ next.tok ≠ .LPAREN) then
          .ok (.meas (Measurement.mk t.lit), next :: ts2)
        else
          let sourceType := strToLower t.lit
          if sourceType ≠ "join" ∧ sourceType ≠ "merge" then
            .error { message := "unknown merge type: " ++ sourceType, pos := t.pos }
          else
            pbind (parseSourceMeasurements fuel [] ts2) fun ms ts3 =>
            match scanIgnoreWhitespace ts3 with
            | (r, ts4) =>
              if r.tok ≠ .RPAREN then .error (newParseError (tokstr r.tok r.lit) [")"] r.pos)
              else .ok (if sourceType = "join" then .join ms else .merge ms, ts4)

/-- isDateString reports whether the string looks like a date-only time
literal, the regular expression of parser.go line 1747: four digits, dash,
two digits, dash, two digits, and nothing else. -/
def isDateString (s : String) : Bool :=
  match s.data with
  | [y1, y2, y3, y4, s1, m1, m2, s2, d1, d2] =>
    isDigitChar y1 && isDigitChar y2 && isDigitChar y3 && isDigitChar y4 &&
    s1 == '-' && isDigitChar m1 && isDigitChar m2 && s2 == '-' &&
    isDigitChar d1 && isDigitChar d2
  | _ => false

/-- isDateTimeString reports whether the string looks like a date plus time
literal, the regular expression of parser.go line 1748: a date prefix
followed by at least one further character. -/
def isDateTimeString (s : String) : Bool :=
  match s.data with
  | y1 :: y2 :: y3 :: y4 :: s1 :: m1 :: m2 :: s2 :: d1 :: d2 :: rest =>
    isDigitChar y1 && isDigitChar y2 && isDigitChar y3 && isDigitChar y4 &&
    s1 == '-' && isDigitChar m1 && isDigitChar m2 && s2 == '-' &&
    isDigitChar d1 && isDigitChar d2 && !rest.isEmpty
  | _ => false

/-- Modelled from the spec: success of the Go standard library time.Parse on
the two accepted date-time layouts, approximated by the shape of the
separator after the date; no claim depends on time-literal values. -/
def goTimeParseOk (s : String) : Bool :=
  match s.data.drop 10 with
  | c :: _ => c == ' ' || c == 'T'
  | [] => false

/-- Modelled from the spec: success of the Go standard library
strconv.ParseFloat on a NUMBER literal; the scanner only emits digit runs
with an optional fraction, all of which ParseFloat accepts. -/
def goParseFloatOk (s : String) : Bool :=
  !s.data.isEmpty && s.data.all (fun c => isDigitChar c || c == '.')

mutual

/-- ParseExpr parses an expression (parser.go 1457-1492): a unary expression
followed by the operator loop. -/
def parseExpr : Nat → List Tok → Except ParseError (Expr × List Tok)
  | 0, _ => .error fuelError
  | fuel + 1, ts =>
    match parseUnaryExpr fuel ts with
    | .error e => .error e
    | .ok (e, ts1) => parseExprLoop fuel e ts1

/-- The operator loop of ParseExpr (parser.go 1466-1491): peek an operator,
parse the next unary expression, and re-root with at most one rotation when
the precedence of the left operator is lower than that of the new one. -/
def parseExprLoop : Nat → Expr → List Tok → Except ParseError (Expr × List Tok)
  | 0, _, _ => .error fuelError
  | fuel + 1, expr, ts =>
    match scanIgnoreWhitespace ts with
    | (opT, ts1) =>
      if opT.tok.isOperator = false then .ok (expr, opT :: ts1)
      else
        match parseUnaryExpr fuel ts1 with
        | .error e => .error e
        | .ok (rhs, ts2) =>
          match expr with
          | .binary llhs lop lrhs =>
            if lop.precedence < opT.tok.precedence then
              parseExprLoop fuel (.binary llhs lop (.binary lrhs opT.tok rhs)) ts2
            else parseExprLoop fuel (.binary (.binary llhs lop lrhs) opT.tok rhs) ts2
          | _ => parseExprLoop fuel (.binary expr opT.tok rhs) ts2

/-- parseUnaryExpr parses a non-binary expression (parser.go 1494-1566).  On
the STRING branch the Go source calls time.Parse; time-literal classification
is modelled from the spec (the raw literal is retained), and regexp.Compile
and strconv.ParseFloat successes are modelled likewise; no claim depends on
those values. -/
def parseUnaryExpr : Nat → List Tok → Except ParseError (Expr × List Tok)
  | 0, _ => .error fuelError
  | fuel + 1, ts =>
    match scanIgnoreWhitespace ts with
    | (t0, ts0) =>
      if t0.tok = .LPAREN then
        match parseExpr fuel ts0 with
        | .error e => .error e
        | .ok (e, ts1) =>
          match scanIgnoreWhitespace ts1 with
          | (t1, ts2) =>
            if t1.tok ≠ .RPAREN then .error (newParseError (tokstr t1.tok t1.lit) [")"] t1.pos)
            else .ok (.paren e, ts2)
      else
        match scanIgnoreWhitespace (t0 :: ts0) with
        | (t, ts1) =>
          match t.tok with
          | .IDENT =>
            match scan ts1 with
            | (n0, ts2) =>
              if n0.tok = .LPAREN then parseCall fuel t.lit ts2
              else .ok (.varRef t.lit, n0 :: ts2)
          | .STRING =>
            if isDateTimeString t.lit then
              if goTimeParseOk t.lit then .ok (.timeLit t.lit, ts1)
              else .error { message := "unable to parse datetime", pos := t.pos }
            else if isDateString t.lit then .ok (.timeLit t.lit, ts1)
            else .ok (.strLit t.lit, ts1)
          | .NUMBER =>
            if goParseFloatOk t.lit then .ok (.number t.lit, ts1)
            else .error { message := "unable to parse number", pos := t.pos }
          | .TRUE => .ok (.boolLit true, ts1)
          | .FALSE => .ok (.boolLit false, ts1)
          | .DURATION_VAL =>
            let v : Int :=
              match ParseDuration t.lit with
              | .ok v => v
              | .error _ => 0
            .ok (.durationLit v, ts1)
          | .MUL => .ok (.wildcard, ts1)
          | .REGEX => .ok (.regexLit t.lit, ts1)
          | _ => .error (newParseError (tokstr t.tok t.lit) ["identifier", "string", "number", "bool"] t.pos)

/-- parseCall parses a function call after the name and left parenthesis
(parser.go 1568-1600). -/
def parseCall : Nat → String → List Tok → Except ParseError (Expr × List Tok)
  | 0, _, _ => .error fuelError
  | fuel + 1, name, ts =>
    match scan ts with
    | (t, ts1) =>
      if t.tok = .RPAREN then .ok (.call name [], ts1)
      else parseCallArgs fuel name [] (t :: ts1)

/-- Argument loop of parseCall (parser.go 1578-1599); both the comma lookahead
and the closing parenthesis use the raw scan. -/
def parseCallArgs : Nat → String → List Expr → List Tok → Except ParseError (Expr × List Tok)
  | 0, _, _, _ => .error fuelError
  | fuel + 1, name, args, ts =>
    match parseExpr fuel ts with
    | .error e => .error e
    | .ok (arg, ts1) =>
      let args := args ++ [arg]
      match scan ts1 with
      | (c, ts2) =>
        if c.tok = .COMMA then parseCallArgs fuel name args ts2
        else
          match scan (c :: ts2) with
          | (r, ts3) =>
            if r.tok ≠ .RPAREN then .error (newParseError (tokstr r.tok r.lit) [")"] r.pos)
            else .ok (.call name args, ts3)

end

/-- parseCondition parses the WHERE clause if it exists (parser.go 1285-1300). -/
def parseCondition (fuel : Nat) (ts : List Tok) : Except ParseError (Option Expr × List Tok) :=
  match scanIgnoreWhitespace ts with
  | (t, ts1) =>
    if t.tok ≠ .WHERE then .ok (none, t :: ts1)
    else pbind (parseExpr fuel ts1) fun e ts2 => .ok (some e, ts2)

/-- parseAlias parses the AS (IDENT) alias for fields (parser.go 1220-1234). -/
def parseAlias (ts : List Tok) : Except ParseError (String × List Tok) :=
  match scanIgnoreWhitespace ts with
  | (t, ts1) =>
    if t.tok ≠ .AS then .ok ("", t :: ts1)
    else parseIdent ts1

/-- parseField parses a single field (parser.go 1196-1218): expression,
optional alias, then all trailing whitespace is consumed. -/
def parseField (fuel : Nat) (ts : List Tok) : Except ParseError (Field × List Tok) :=
  pbind (parseExpr fuel ts) fun e ts1 =>
  pbind (parseAlias ts1) fun a ts2 =>
  .ok ({ expr := e, aliasName := a }, consumeWhitespace ts2)

/-- Field-list loop of parseFields (parser.go 1177-1192); the comma lookahead
uses the raw scan. -/
def parseFieldsLoop : Nat → List Field → List Tok → Except ParseError (List Field × List Tok)
  | 0, _, _ => .error fuelError
  | fuel + 1, acc, ts =>
    pbind (parseField fuel ts) fun f ts1 =>
    let acc := acc ++ [f]
    match scan ts1 with
    | (c, ts2) =>
      if c.tok ≠ .COMMA then .ok (acc, c :: ts2)
      else parseFieldsLoop fuel acc ts2

/-- parseFields parses a list of one or more fields (parser.go 1166-1194). -/
def parseFields (fuel : Nat) (ts : List Tok) : Except ParseError (List Field × List Tok) :=
  match scanIgnoreWhitespace ts with
  | (t, ts1) =>
    if t.tok = .MUL then .ok ([{ expr := .wildcard }], ts1)
    else parseFieldsLoop fuel [] (t :: ts1)

/-- parseDimension parses a single dimension (parser.go 1335-1347). -/
def parseDimension (fuel : Nat) (ts : List Tok) : Except ParseError (Dimension × List Tok) :=
  pbind (parseExpr fuel ts) fun e ts1 =>
  .ok (Dimension.mk e, consumeWhitespace ts1)

/-- Dimension-list loop of parseDimensions (parser.go 1315-1331); the comma
lookahead uses the raw scan. -/
def parseDimensionsLoop : Nat → List Dimension → List Tok → Except ParseError (List Dimension × List Tok)
  | 0, _, _ => .error fuelError
  | fuel + 1, acc, ts =>
    pbind (parseDimension fuel ts) fun d ts1 =>
    let acc := acc ++ [d]
    match scan ts1 with
    | (c, ts2) =>
      if c.tok ≠ .COMMA then .ok (acc, c :: ts2)
      else parseDimensionsLoop fuel acc ts2

/-- parseDimensions parses the GROUP BY clause if it exists
(parser.go 1302-1333). -/
def parseDimensions (fuel : Nat) (ts : List Tok) : Except ParseError (List Dimension × List Tok) :=
  match scanIgnoreWhitespace ts with
  | (t, ts1) =>
    if t.tok ≠ .GROUP then .ok ([], t :: ts1)
    else
      match scanIgnoreWhitespace ts1 with
      | (t2, ts2) =>
        if t2.tok ≠ .BY then .error (newParseError (tokstr t2.tok t2.lit) ["BY"] t2.pos)
        else parseDimensionsLoop fuel [] ts2

/-- Whether a target clause is required (parser.go 567-573). -/
inductive TargetRequirement where
  | required
  | notRequired
deriving DecidableEq, Repr

/-- parseTarget parses the INTO clause (parser.go 575-607). -/
def parseTarget (tr : TargetRequirement) (ts : List Tok) : Except ParseError (Option Target × List Tok) :=
  match scanIgnoreWhitespace ts with
  | (t, ts1) =>
    if t.tok ≠ .INTO then
      match tr with
      | .required => .error (newParseError (tokstr t.tok t.lit) ["INTO"] t.pos)
      | .notRequired => .ok (none, t :: ts1)
    else
      pbind (parseIdent ts1) fun ident ts2 =>
      match scanIgnoreWhitespace ts2 with
      | (t2, ts3) =>
        if t2.tok ≠ .ON then .ok (some { measurement := ident }, t2 :: ts3)
        else
          pbind (parseIdent ts3) fun db ts4 =>
          .ok (some { measurement := ident, database := db }, ts4)

/-- parseSelectStatement parses a select statement after the SELECT token
(parser.go 515-565). -/
def parseSelectStatement (fuel : Nat) (tr : TargetRequirement) (ts : List Tok) :
    Except ParseError (SelectStatement × List Tok) :=
  pbind (parseFields fuel ts) fun fields ts =>
  pbind (parseTarget tr ts) fun target ts =>
  match scanIgnoreWhitespace ts with
  | (t, ts1) =>
    if t.tok ≠ .FROM then .error (newParseError (tokstr t.tok t.lit) ["FROM"] t.pos)
    else
      pbind (parseSource fuel ts1) fun src ts =>
      pbind (parseCondition fuel ts) fun cond ts =>
      pbind (parseDimensions fuel ts) fun dims ts =>
      pbind (parseOrderBy fuel ts) fun sorts ts =>
      pbind (parseOptionalTokenAndInt .LIMIT ts) fun lim ts =>
      pbind (parseOptionalTokenAndInt .OFFSET ts) fun off ts =>
      .ok ({ fields := fields, target := target, source := some src, condition := cond,
             dimensions := dims, sortFields := sorts, limit := lim, offset := off }, ts)

/-- parseDeleteStatement parses a delete statement after the DELETE token
(parser.go 609-632). -/
def parseDeleteStatement (fuel : Nat) (ts : List Tok) : Except ParseError (DeleteStatement × List Tok) :=
  match scanIgnoreWhitespace ts with
  | (t, ts1) =>
    if t.tok ≠ .FROM then .error (newParseError (tokstr t.tok t.lit) ["FROM"] t.pos)
    else
      pbind (parseSource fuel ts1) fun src ts2 =>
      pbind (parseCondition fuel ts2) fun cond ts3 =>
      .ok ({ source := some src, condition := cond }, ts3)

/-- parseShowSeriesStatement (parser.go 634-670): optional FROM source, then
condition, sort, limit and offset. -/
def parseShowSeriesStatement (fuel : Nat) (ts : List Tok) : Except ParseError (ShowSeriesStatement × List Tok) :=
  pbind
    (match scanIgnoreWhitespace ts with
     | (t, ts1) =>
       if t.tok = .FROM then
         pbind (parseSource fuel ts1) fun src ts2 => .ok (some src, ts2)
       else .ok ((none : Option Source), t :: ts1))
    fun src ts =>
  pbind (parseCondition fuel ts) fun cond ts =>
  pbind (parseOrderBy fuel ts) fun sorts ts =>
  pbind (parseOptionalTokenAndInt .LIMIT ts) fun lim ts =>
  pbind (parseOptionalTokenAndInt .OFFSET ts) fun off ts =>
  .ok ({ source := src, condition := cond, sortFields := sorts, limit := lim, offset := off }, ts)

/-- parseShowMeasurementsStatement (parser.go 672-699). -/
def parseShowMeasurementsStatement (fuel : Nat) (ts : List Tok) :
    Except ParseError (ShowMeasurementsStatement × List Tok) :=
  pbind (parseCondition fuel ts) fun cond ts =>
  pbind (parseOrderBy fuel ts) fun sorts ts =>
  pbind (parseOptionalTokenAndInt .LIMIT ts) fun lim ts =>
  pbind (parseOptionalTokenAndInt .OFFSET ts) fun off ts =>
  .ok ({ condition := cond, sortFields := sorts, limit := lim, offset := off }, ts)

/-- parseShowRetentionPoliciesStatement (parser.go 701-713). -/
def parseShowRetentionPoliciesStatement (ts : List Tok) :
    Except ParseError (ShowRetentionPoliciesStatement × List Tok) :=
  pbind (parseIdent ts) fun db ts1 => .ok ({ database := db }, ts1)

/-- parseShowTagKeysStatement (parser.go 715-751). -/
def parseShowTagKeysStatement (fuel : Nat) (ts : List Tok) :
    Except ParseError (ShowTagKeysStatement × List Tok) :=
  pbind
    (match scanIgnoreWhitespace ts with
     | (t, ts1) =>
       if t.tok = .FROM then
         pbind (parseSource fuel ts1) fun src ts2 => .ok (some src, ts2)
       else .ok ((none : Option Source), t :: ts1))
    fun src ts =>
  pbind (parseCondition fuel ts) fun cond ts =>
  pbind (parseOrderBy fuel ts) fun sorts ts =>
  pbind (parseOptionalTokenAndInt .LIMIT ts) fun lim ts =>
  pbind (parseOptionalTokenAndInt .OFFSET ts) fun off ts =>
  .ok ({ source := src, condition := cond, sortFields := sorts, limit := lim, offset := off }, ts)

/-- parseTagKeys parses the WITH KEY clause of SHOW TAG VALUES
(parser.go 796-835), including the quirk that the expected-token string for a
missing closing parenthesis is the opening one. -/
def parseTagKeys (fuel : Nat) (ts : List Tok) : Except ParseError (List String × List Tok) :=
  pbind (parseTokens [.WITH, .KEY] ts) fun _ ts1 =>
  match scanIgnoreWhitespace ts1 with
  | (t, ts2) =>
    if t.tok = .IN then
      match scanIgnoreWhitespace ts2 with
      | (lp, ts3) =>
        if lp.tok ≠ .LPAREN then .error (newParseError (tokstr lp.tok lp.lit) ["("] lp.pos)
        else
          pbind (parseIdentList fuel ts3) fun keys ts4 =>
          match scanIgnoreWhitespace ts4 with
          | (rp, ts5) =>
            if rp.tok ≠ .RPAREN then .error (newParseError (tokstr rp.tok rp.lit) ["("] rp.pos)
            else .ok (keys, ts5)
    else if t.tok = .EQ then
      pbind (parseIdent ts2) fun k ts3 => .ok ([k], ts3)
    else .error (newParseError (tokstr t.tok t.lit) ["IN", "="] t.pos)

/-- parseShowTagValuesStatement (parser.go 753-794). -/
def parseShowTagValuesStatement (fuel : Nat) (ts : List Tok) :
    Except ParseError (ShowTagValuesStatement × List Tok) :=
  pbind
    (match scanIgnoreWhitespace ts with
     | (t, ts1) =>
       if t.tok = .FROM then
         pbind (parseSource fuel ts1) fun src ts2 => .ok (some src, ts2)
       else .ok ((none : Option Source), t :: ts1))
    fun src ts =>
  pbind (parseTagKeys fuel ts) fun keys ts =>
  pbind (parseCondition fuel ts) fun cond ts =>
  pbind (parseOrderBy fuel ts) fun sorts ts =>
  pbind (parseOptionalTokenAndInt .LIMIT ts) fun lim ts =>
  pbind (parseOptionalTokenAndInt .OFFSET ts) fun off ts =>
  .ok ({ source := src, tagKeys := keys, condition := cond, sortFields := sorts,
         limit := lim, offset := off }, ts)

/-- parseShowFieldKeysStatement (parser.go 843-874): optional FROM source,
then sort, limit and offset (no condition clause). -/
def parseShowFieldKeysStatement (fuel : Nat) (ts : List Tok) :
    Except ParseError (ShowFieldKeysStatement × List Tok) :=
  pbind
    (match scanIgnoreWhitespace ts with
     | (t, ts1) =>
       if t.tok = .FROM then
         pbind (parseSource fuel ts1) fun src ts2 => .ok (some src, ts2)
       else .ok ((none : Option Source), t :: ts1))
    fun src ts =>
  pbind (parseOrderBy fuel ts) fun sorts ts =>
  pbind (parseOptionalTokenAndInt .LIMIT ts) fun lim ts =>
  pbind (parseOptionalTokenAndInt .OFFSET ts) fun off ts =>
  .ok ({ source := src, sortFields := sorts, limit := lim, offset := off }, ts)

/-- parseDropMeasurementStatement (parser.go 876-889). -/
def parseDropMeasurementStatement (ts : List Tok) :
    Except ParseError (DropMeasurementStatement × List Tok) :=
  pbind (parseIdent ts) fun name ts1 => .ok ({ name := name }, ts1)

/-- parseDropSeriesStatement (parser.go 891-920): optional FROM source and
WHERE condition; when both are absent, a NUMBER series id is required. -/
def parseDropSeriesStatement (fuel : Nat) (ts : List Tok) :
    Except ParseError (DropSeriesStatement × List Tok) :=
  pbind
    (match scanIgnoreWhitespace ts with
     | (t, ts1) =>
       if t.tok = .FROM then
         pbind (parseSource fuel ts1) fun src ts2 => .ok (some src, ts2)
       else .ok ((none : Option Source), t :: ts1))
    fun src ts =>
  pbind (parseCondition fuel ts) fun cond ts =>
  if cond.isNone && src.isNone then
    pbind (parseUInt32 ts) fun sid ts1 =>
    .ok ({ source := src, condition := cond, seriesID := sid }, ts1)
  else .ok ({ source := src, condition := cond }, ts)

/-- parseShowContinuousQueriesStatement (parser.go 922-933). -/
def parseShowContinuousQueriesStatement (ts : List Tok) : Except ParseError (Unit × List Tok) :=
  match scanIgnoreWhitespace ts with
  | (t, ts1) =>
    if t.tok ≠ .QUERIES then .error (newParseError (tokstr t.tok t.lit) ["QUERIES"] t.pos)
    else .ok ((), ts1)

/-- Modelled from the spec: SelectStatement.Aggregated of ast.go (not under
src/): whether a top-level field expression is a function call. -/
def SelectStatement.aggregated (s : SelectStatement) : Bool :=
  s.fields.any fun f =>
    match f.expr with
    | .call _ _ => true
    | _ => false

/-- Modelled from the spec: SelectStatement.GroupByInterval of ast.go (not
under src/): the duration of a time(...) dimension call, zero when absent. -/
def SelectStatement.groupByInterval (s : SelectStatement) : Int :=
  match s.dimensions.findSome? (fun d =>
    match d.expr with
    | .call "time" [.durationLit v] => some v
    | _ => none) with
  | some v => v
  | none => 0

/-- parseCreateContinuousQueryStatement (parser.go 942-1004).  The source
rewinds the scanner by two tokens before reporting the missing GROUP BY
time(...); the model reports at the next token, which no claim inspects. -/
def parseCreateContinuousQueryStatement (fuel : Nat) (ts : List Tok) :
    Except ParseError (CreateContinuousQueryStatement × List Tok) :=
  match scanIgnoreWhitespace ts with
  | (t, ts1) =>
    if t.tok ≠ .QUERY then .error (newParseError (tokstr t.tok t.lit) ["QUERY"] t.pos)
    else
      pbind (parseIdent ts1) fun name ts =>
      match scanIgnoreWhitespace ts with
      | (t2, ts2) =>
        if t2.tok ≠ .ON then .error (newParseError (tokstr t2.tok t2.lit) ["ON"] t2.pos)
        else
          pbind (parseIdent ts2) fun db ts =>
          pbind (parseTokens [.BEGIN, .SELECT] ts) fun _ ts =>
          pbind (parseSelectStatement fuel .required ts) fun source ts =>
          if source.aggregated ∧ source.groupByInterval = 0 then
            match scanIgnoreWhitespace ts with
            | (t3, _) => .error (newParseError (tokstr t3.tok t3.lit) ["GROUP BY time(...)"] t3.pos)
          else
            match scanIgnoreWhitespace ts with
            | (t4, ts4) =>
              if t4.tok ≠ .END then .error (newParseError (tokstr t4.tok t4.lit) ["END"] t4.pos)
              else .ok ({ name := name, database := db, source := source }, ts4)

/-- parseCreateDatabaseStatement (parser.go 1006-1019). -/
def parseCreateDatabaseStatement (ts : List Tok) :
    Except ParseError (CreateDatabaseStatement × List Tok) :=
  pbind (parseIdent ts) fun name ts1 => .ok ({ name := name }, ts1)

/-- parseDropDatabaseStatement (parser.go 1021-1034). -/
def parseDropDatabaseStatement (ts : List Tok) :
    Except ParseError (DropDatabaseStatement × List Tok) :=
  pbind (parseIdent ts) fun name ts1 => .ok ({ name := name }, ts1)

/-- parseDropRetentionPolicyStatement (parser.go 1036-1059). -/
def parseDropRetentionPolicyStatement (ts : List Tok) :
    Except ParseError (DropRetentionPolicyStatement × List Tok) :=
  pbind (parseIdent ts) fun name ts1 =>
  match scanIgnoreWhitespace ts1 with
  | (t, ts2) =>
    if t.tok ≠ .ON then .error (newParseError (tokstr t.tok t.lit) ["ON"] t.pos)
    else
      pbind (parseIdent ts2) fun db ts3 =>
      .ok ({ name := name, database := db }, ts3)

/-- parseCreateUserStatement (parser.go 1061-1098). -/
def parseCreateUserStatement (ts : List Tok) :
    Except ParseError (CreateUserStatement × List Tok) :=
  pbind (parseIdent ts) fun name ts =>
  pbind (parseTokens [.WITH, .PASSWORD] ts) fun _ ts =>
  pbind (parseString ts) fun password ts =>
  match scanIgnoreWhitespace ts with
  | (t, ts1) =>
    if t.tok ≠ .WITH then .ok ({ name := name, password := password }, t :: ts1)
    else
      pbind (parseTokens [.ALL, .PRIVILEGES] ts1) fun _ ts2 =>
      .ok ({ name := name, password := password, privilege := some .allPriv }, ts2)

/-- parseDropUserStatement (parser.go 1100-1113). -/
def parseDropUserStatement (ts : List Tok) :
    Except ParseError (DropUserStatement × List Tok) :=
  pbind (parseIdent ts) fun name ts1 => .ok ({ name := name }, ts1)

/-- parseDropContinuousQueryStatement (parser.go 1146-1164). -/
def parseDropContinuousQueryStatement (ts : List Tok) :
    Except ParseError (DropContinuousQueryStatement × List Tok) :=
  match scanIgnoreWhitespace ts with
  | (t, ts1) =>
    if t.tok ≠ .QUERY then .error (newParseError (tokstr t.tok t.lit) ["QUERY"] t.pos)
    else
      pbind (parseIdent ts1) fun name ts2 => .ok ({ name := name }, ts2)

/-- parseCreateRetentionPolicyStatement (parser.go 194-251): name, ON,
database, DURATION value, REPLICATION integer in [1, math.MaxInt32], and an
optional trailing DEFAULT. -/
def parseCreateRetentionPolicyStatement (ts : List Tok) :
    Except ParseError (CreateRetentionPolicyStatement × List Tok) :=
  pbind (parseIdent ts) fun name ts =>
  match scanIgnoreWhitespace ts with
  | (t, ts1) =>
    if t.tok ≠ .ON then .error (newParseError (tokstr t.tok t.lit) ["ON"] t.pos)
    else
      pbind (parseIdent ts1) fun db ts =>
      match scanIgnoreWhitespace ts with
      | (t2, ts2) =>
        if t2.tok ≠ .DURATION then .error (newParseError (tokstr t2.tok t2.lit) ["DURATION"] t2.pos)
        else
          pbind (parseDuration ts2) fun d ts =>
          match scanIgnoreWhitespace ts with
          | (t3, ts3) =>
            if t3.tok ≠ .REPLICATION then
              .error (newParseError (tokstr t3.tok t3.lit) ["REPLICATION"] t3.pos)
            else
              pbind (parseInt 1 2147483647 ts3) fun n ts =>
              match scanIgnoreWhitespace ts with
              | (t4, ts4) =>
                if t4.tok = .DEFAULT then
                  .ok ({ name := name, database := db, duration := d,
                         replication := n, isDefault := true }, ts4)
                else
                  .ok ({ name := name, database := db, duration := d,
                         replication := n }, t4 :: ts4)

/-- Option loop of parseAlterRetentionPolicyStatement (parser.go 277-304):
up to maxNumOptions = 3 iterations; each DURATION or REPLICATION occurrence
overwrites the field, DEFAULT sets the flag, and a non-option token is an
error only on the first iteration. -/
def parseAlterOptions : Nat → Nat → AlterRetentionPolicyStatement → List Tok →
    Except ParseError (AlterRetentionPolicyStatement × List Tok)
  | 0, _, stmt, ts => .ok (stmt, ts)
  | remaining + 1, i, stmt, ts =>
    match scanIgnoreWhitespace ts with
    | (t, ts1) =>
      match t.tok with
      | .DURATION =>
        pbind (parseDuration ts1) fun d ts2 =>
        parseAlterOptions remaining (i + 1) { stmt with duration := some d } ts2
      | .REPLICATION =>
        pbind (parseInt 1 2147483647 ts1) fun n ts2 =>
        parseAlterOptions remaining (i + 1) { stmt with replication := some n } ts2
      | .DEFAULT => parseAlterOptions remaining (i + 1) { stmt with isDefault := true } ts1
      | _ =>
        if i < 1 then
          .error (newParseError (tokstr t.tok t.lit) ["DURATION", "RETENTION", "DEFAULT"] t.pos)
        else .ok (stmt, t :: ts1)

/-- parseAlterRetentionPolicyStatement (parser.go 253-307). -/
def parseAlterRetentionPolicyStatement (ts : List Tok) :
    Except ParseError (AlterRetentionPolicyStatement × List Tok) :=
  pbind (parseIdent ts) fun name ts =>
  match scanIgnoreWhitespace ts with
  | (t, ts1) =>
    if t.tok ≠ .ON then .error (newParseError (tokstr t.tok t.lit) ["ON"] t.pos)
    else
      pbind (parseIdent ts1) fun db ts2 =>
      parseAlterOptions 3 0 { name := name, database := db } ts2

/-- parseGrantStatement (parser.go 452-494). -/
def parseGrantStatement (ts : List Tok) : Except ParseError (GrantStatement × List Tok) :=
  pbind (parsePrivilege ts) fun priv ts1 =>
  match scanIgnoreWhitespace ts1 with
  | (t, ts2) =>
    if t.tok = .ON then
      pbind (parseIdent ts2) fun onName ts3 =>
      match scanIgnoreWhitespace ts3 with
      | (t2, ts4) =>
        if t2.tok ≠ .TO then .error (newParseError (tokstr t2.tok t2.lit) ["TO"] t2.pos)
        else
          pbind (parseIdent ts4) fun user ts5 =>
          .ok ({ privilege := priv, onName := onName, user := user }, ts5)
    else if priv ≠ .allPriv then .error (newParseError (tokstr t.tok t.lit) ["ON"] t.pos)
    else if t.tok ≠ .TO then .error (newParseError (tokstr t.tok t.lit) ["TO"] t.pos)
    else
      pbind (parseIdent ts2) fun user ts3 =>
      .ok ({ privilege := priv, user := user }, ts3)

/-- parseRevokeStatement (parser.go 408-450). -/
def parseRevokeStatement (ts : List Tok) : Except ParseError (RevokeStatement × List Tok) :=
  pbind (parsePrivilege ts) fun priv ts1 =>
  match scanIgnoreWhitespace ts1 with
  | (t, ts2) =>
    if t.tok = .ON then
      pbind (parseIdent ts2) fun onName ts3 =>
      match scanIgnoreWhitespace ts3 with
      | (t2, ts4) =>
        if t2.tok ≠ .FROM then .error (newParseError (tokstr t2.tok t2.lit) ["FROM"] t2.pos)
        else
          pbind (parseIdent ts4) fun user ts5 =>
          .ok ({ privilege := priv, onName := onName, user := user }, ts5)
    else if priv ≠ .allPriv then .error (newParseError (tokstr t.tok t.lit) ["ON"] t.pos)
    else if t.tok ≠ .FROM then .error (newParseError (tokstr t.tok t.lit) ["FROM"] t.pos)
    else
      pbind (parseIdent ts2) fun user ts3 =>
      .ok ({ privilege := priv, user := user }, ts3)

/-- parseShowStatement dispatches after the SHOW token (parser.go 95-133). -/
def parseShowStatement (fuel : Nat) (ts : List Tok) : Except ParseError (Statement × List Tok) :=
  match scanIgnoreWhitespace ts with
  | (t, ts1) =>
    match t.tok with
    | .CONTINUOUS =>
      pbind (parseShowContinuousQueriesStatement ts1) fun _ ts2 =>
      .ok (.showContinuousQueries, ts2)
    | .DATABASES => .ok (.showDatabases, ts1)
    | .FIELD =>
      match scanIgnoreWhitespace ts1 with
      | (t2, ts2) =>
        if t2.tok = .KEYS then
          pbind (parseShowFieldKeysStatement fuel ts2) fun s ts3 => .ok (.showFieldKeys s, ts3)
        else .error (newParseError (tokstr t2.tok t2.lit) ["KEYS", "VALUES"] t2.pos)
    | .MEASUREMENTS =>
      pbind (parseShowMeasurementsStatement fuel ts1) fun s ts2 => .ok (.showMeasurements s, ts2)
    | .RETENTION =>
      match scanIgnoreWhitespace ts1 with
      | (t2, ts2) =>
        if t2.tok = .POLICIES then
          pbind (parseShowRetentionPoliciesStatement ts2) fun s ts3 =>
          .ok (.showRetentionPolicies s, ts3)
        else .error (newParseError (tokstr t2.tok t2.lit) ["POLICIES"] t2.pos)
    | .SERIES =>
      pbind (parseShowSeriesStatement fuel ts1) fun s ts2 => .ok (.showSeries s, ts2)
    | .TAG =>
      match scanIgnoreWhitespace ts1 with
      | (t2, ts2) =>
        if t2.tok = .KEYS then
          pbind (parseShowTagKeysStatement fuel ts2) fun s ts3 => .ok (.showTagKeys s, ts3)
        else if t2.tok = .VALUES then
          pbind (parseShowTagValuesStatement fuel ts2) fun s ts3 => .ok (.showTagValues s, ts3)
        else .error (newParseError (tokstr t2.tok t2.lit) ["KEYS", "VALUES"] t2.pos)
    | .USERS => .ok (.showUsers, ts1)
    | _ =>
      .error (newParseError (tokstr t.tok t.lit)
        ["CONTINUOUS", "DATABASES", "FIELD", "MEASUREMENTS", "RETENTION", "SERIES", "TAG", "USERS"]
        t.pos)

/-- parseCreateStatement dispatches after the CREATE token (parser.go 135-154). -/
def parseCreateStatement (fuel : Nat) (ts : List Tok) : Except ParseError (Statement × List Tok) :=
  match scanIgnoreWhitespace ts with
  | (t, ts1) =>
    if t.tok = .CONTINUOUS then
      pbind (parseCreateContinuousQueryStatement fuel ts1) fun s ts2 =>
      .ok (.createContinuousQuery s, ts2)
    else if t.tok = .DATABASE then
      pbind (parseCreateDatabaseStatement ts1) fun s ts2 => .ok (.createDatabase s, ts2)
    else if t.tok = .USER then
      pbind (parseCreateUserStatement ts1) fun s ts2 => .ok (.createUser s, ts2)
    else if t.tok = .RETENTION then
      match scanIgnoreWhitespace ts1 with
      | (t2, ts2) =>
        if t2.tok ≠ .POLICY then .error (newParseError (tokstr t2.tok t2.lit) ["POLICY"] t2.pos)
        else
          pbind (parseCreateRetentionPolicyStatement ts2) fun s ts3 =>
          .ok (.createRetentionPolicy s, ts3)
    else
      .error (newParseError (tokstr t.tok t.lit) ["CONTINUOUS", "DATABASE", "USER", "RETENTION"] t.pos)

/-- parseDropStatement dispatches after the DROP token (parser.go 156-178). -/
def parseDropStatement (fuel : Nat) (ts : List Tok) : Except ParseError (Statement × List Tok) :=
  match scanIgnoreWhitespace ts with
  | (t, ts1) =>
    if t.tok = .SERIES then
      pbind (parseDropSeriesStatement fuel ts1) fun s ts2 => .ok (.dropSeries s, ts2)
    else if t.tok = .MEASUREMENT then
      pbind (parseDropMeasurementStatement ts1) fun s ts2 => .ok (.dropMeasurement s, ts2)
    else if t.tok = .CONTINUOUS then
      pbind (parseDropContinuousQueryStatement ts1) fun s ts2 => .ok (.dropContinuousQuery s, ts2)
    else if t.tok = .DATABASE then
      pbind (parseDropDatabaseStatement ts1) fun s ts2 => .ok (.dropDatabase s, ts2)
    else if t.tok = .RETENTION then
      match scanIgnoreWhitespace ts1 with
      | (t2, ts2) =>
        if t2.tok ≠ .POLICY then .error (newParseError (tokstr t2.tok t2.lit) ["POLICY"] t2.pos)
        else
          pbind (parseDropRetentionPolicyStatement ts2) fun s ts3 =>
          .ok (.dropRetentionPolicy s, ts3)
    else if t.tok = .USER then
      pbind (parseDropUserStatement ts1) fun s ts2 => .ok (.dropUser s, ts2)
    else .error (newParseError (tokstr t.tok t.lit) ["SERIES", "CONTINUOUS", "MEASUREMENT"] t.pos)

/-- parseAlterStatement dispatches after the ALTER token (parser.go 180-192). -/
def parseAlterStatement (ts : List Tok) : Except ParseError (Statement × List Tok) :=
  match scanIgnoreWhitespace ts with
  | (t, ts1) =>
    if t.tok = .RETENTION then
      match scanIgnoreWhitespace ts1 with
      | (t2, ts2) =>
        if t2.tok ≠ .POLICY then .error (newParseError (tokstr t2.tok t2.lit) ["POLICY"] t2.pos)
        else
          pbind (parseAlterRetentionPolicyStatement ts2) fun s ts3 =>
          .ok (.alterRetentionPolicy s, ts3)
    else .error (newParseError (tokstr t.tok t.lit) ["RETENTION"] t.pos)

/-- ParseStatement dispatches on the first non-whitespace token
(parser.go 69-93); an unrecognized token reports the expected set SELECT. -/
def ParseStatement (fuel : Nat) (ts : List Tok) : Except ParseError (Statement × List Tok) :=
  match scanIgnoreWhitespace ts with
  | (t, ts1) =>
    match t.tok with
    | .SELECT =>
      pbind (parseSelectStatement fuel .notRequired ts1) fun s ts2 => .ok (.select s, ts2)
    | .DELETE =>
      pbind (parseDeleteStatement fuel ts1) fun s ts2 => .ok (.delete s, ts2)
    | .SHOW => parseShowStatement fuel ts1
    | .CREATE => parseCreateStatement fuel ts1
    | .DROP => parseDropStatement fuel ts1
    | .GRANT =>
      pbind (parseGrantStatement ts1) fun s ts2 => .ok (.grant s, ts2)
    | .REVOKE =>
      pbind (parseRevokeStatement ts1) fun s ts2 => .ok (.revoke s, ts2)
    | .ALTER => parseAlterStatement ts1
    | _ => .error (newParseError (tokstr t.tok t.lit) ["SELECT"] t.pos)

/-- Statement loop of ParseQuery (parser.go 47-64): after each statement a
semicolon or EOF is required; EOF ends the query, while a semicolon continues
the loop and so parses another statement. -/
def parseQueryLoop : Nat → List Statement → List Tok → Except ParseError (Query × List Tok)
  | 0, _, _ => .error fuelError
  | fuel + 1, acc, ts =>
    match ParseStatement fuel ts with
    | .error e => .error e
    | .ok (s, ts1) =>
      let acc := acc ++ [s]
      match scanIgnoreWhitespace ts1 with
      | (t, ts2) =>
        if t.tok ≠ .SEMICOLON ∧ t.tok ≠ .EOF then
          .error (newParseError (tokstr t.tok t.lit) [";", "EOF"] t.pos)
        else if t.tok = .EOF then .ok (Query.mk acc, ts2)
        else parseQueryLoop fuel acc ts2

/-- ParseQuery parses an InfluxQL token stream and returns a Query
(parser.go 39-67): whitespace-only input yields an empty query. -/
def ParseQuery (fuel : Nat) (ts : List Tok) : Except ParseError (Query × List Tok) :=
  match scanIgnoreWhitespace ts with
  | (t, ts1) =>
    if t.tok = .EOF then .ok (Query.mk [], ts1)
    else parseQueryLoop fuel [] (t :: ts1)

/-- strings.Join of the Go standard library: concatenation with a separator
between consecutive elements. -/
def strJoin : List String → String → String
  | [], _ => ""
  | [x], _ => x
  | x :: xs, sep => x ++ sep ++ strJoin xs sep

/-- Error returns the string representation of a ParseError
(parser.go 1766-1772): the message when one is set, otherwise the found token
and the expected names joined by a comma; the zero-based position is reported
one-based in both forms. -/
def ParseError.errorString (e : ParseError) : String :=
  if e.message ≠ "" then
    e.message ++ " at line " ++ natRepr (e.pos.line + 1) ++ ", char " ++ natRepr (e.pos.char + 1)
  else
    "found " ++ e.found ++ ", expected " ++ strJoin e.expected ", " ++
      " at line " ++ natRepr (e.pos.line + 1) ++ ", char " ++ natRepr (e.pos.char + 1)

/-- Whether a character is an ASCII letter. -/
def isLetterChar (c : Char) : Bool :=
  ('a' ≤ c && c ≤ 'z') || ('A' ≤ c && c ≤ 'Z')

/-- Whether a character may continue an identifier. -/
def isIdentChar (c : Char) : Bool :=
  isLetterChar c || isDigitChar c || c == '_'

/-- Whether a character is whitespace (space, tab or newline). -/
def isWSChar (c : Char) : Bool :=
  c == ' ' || c == Char.ofNat 9 || c == Char.ofNat 10

/-- Modelled from the spec: the keyword table of token.go (not under src/),
consulted with the upper-cased spelling of an identifier run. -/
def keywordToken (up : String) : Option Token :=
  match up with
  | "ALL" => some .ALL
  | "ALTER" => some .ALTER
  | "AND" => some .AND
  | "AS" => some .AS
  | "ASC" => some .ASC
  | "BEGIN" => some .BEGIN
  | "BY" => some .BY
  | "CONTINUOUS" => some .CONTINUOUS
  | "CREATE" => some .CREATE
  | "DATABASE" => some .DATABASE
  | "DATABASES" => some .DATABASES
  | "DEFAULT" => some .DEFAULT
  | "DELETE" => some .DELETE
  | "DESC" => some .DESC
  | "DROP" => some .DROP
  | "DURATION" => some .DURATION
  | "END" => some .END
  | "FALSE" => some .FALSE
  | "FIELD" => some .FIELD
  | "FROM" => some .FROM
  | "GRANT" => some .GRANT
  | "GROUP" => some .GROUP
  | "IN" => some .IN
  | "INTO" => some .INTO
  | "KEY" => some .KEY
  | "KEYS" => some .KEYS
  | "LIMIT" => some .LIMIT
  | "MEASUREMENT" => some .MEASUREMENT
  | "MEASUREMENTS" => some .MEASUREMENTS
  | "OFFSET" => some .OFFSET
  | "ON" => some .ON
  | "OR" => some .OR
  | "ORDER" => some .ORDER
  | "PASSWORD" => some .PASSWORD
  | "POLICY" => some .POLICY
  | "POLICIES" => some .POLICIES
  | "PRIVILEGES" => some .PRIVILEGES
  | "QUERIES" => some .QUERIES
  | "QUERY" => some .QUERY
  | "READ" => some .READ
  | "REPLICATION" => some .REPLICATION
  | "RETENTION" => some .RETENTION
  | "REVOKE" => some .REVOKE
  | "SELECT" => some .SELECT
  | "SERIES" => some .SERIES
  | "SHOW" => some .SHOW
  | "TAG" => some .TAG
  | "TO" => some .TO
  | "TRUE" => some .TRUE
  | "USER" => some .USER
  | "USERS" => some .USERS
  | "VALUES" => some .VALUES
  | "WHERE" => some .WHERE
  | "WITH" => some .WITH
  | "WRITE" => some .WRITE
  | _ => none

/-- The duration unit marker characters. -/
def unitChars : List Char := ['u', 'µ', 's', 'm', 'h', 'd', 'w']

/-- Modelled from the spec: quoted-literal scanning with backslash escapes;
returns the unescaped content and the rest after the closing quote. -/
def scanQuoted (q : Char) : List Char → List Char → List Char × List Char
  | [], acc => (acc.reverse, [])
  | c :: rest, acc =>
    if c = q then (acc.reverse, rest)
    else if c = Char.ofNat 92 then
      match rest with
      | [] => (acc.reverse, [])
      | e :: rest2 =>
        scanQuoted q rest2 ((if e = 'n' then Char.ofNat 10 else e) :: acc)
    else scanQuoted q rest (c :: acc)

/-- Modelled from the spec: one step of the Scanner (scanner.go is not under
src/): whitespace runs collapse to WS; identifier runs become keywords via
the upper-cased table or IDENT; digit runs become DURATION_VAL when a unit
marker follows and NUMBER otherwise, with an optional fraction; quoted
literals become STRING or IDENT; operators and punctuation as listed.  Regex
literals are context-dependent in the scanner and unused by the claims, so a
slash scans as DIV. -/
def scanOne : List Char → Token × String × List Char
  | [] => (.EOF, "", [])
  | c :: rest =>
    if isWSChar c then
      match List.span isWSChar (c :: rest) with
      | (ws, rest2) => (.WS, ⟨ws⟩, rest2)
    else if isLetterChar c || c == '_' then
      match List.span isIdentChar (c :: rest) with
      | (word, rest2) =>
        let lit : String := ⟨word⟩
        match keywordToken (strToUpper lit) with
        | some kw => (kw, "", rest2)
        | none => (.IDENT, lit, rest2)
    else if isDigitChar c then
      match List.span isDigitChar (c :: rest) with
      | (digits, rest2) =>
        match rest2 with
        | 'm' :: 's' :: rest3 => (.DURATION_VAL, ⟨digits ++ ['m', 's']⟩, rest3)
        | u :: rest3 =>
          if unitChars.contains u then (.DURATION_VAL, ⟨digits ++ [u]⟩, rest3)
          else if u = '.' then
            match List.span isDigitChar rest3 with
            | (frac, rest4) => (.NUMBER, ⟨digits ++ '.' :: frac⟩, rest4)
          else (.NUMBER, ⟨digits⟩, u :: rest3)
        | [] => (.NUMBER, ⟨digits⟩, [])
    else if c = Char.ofNat 39 then
      match scanQuoted (Char.ofNat 39) rest [] with
      | (content, rest2) => (.STRING, ⟨content⟩, rest2)
    else if c = Char.ofNat 34 then
      match scanQuoted (Char.ofNat 34) rest [] with
      | (content, rest2) => (.IDENT, ⟨content⟩, rest2)
    else if c = '=' then (.EQ, "", rest)
    else if c = '!' then
      match rest with
      | '=' :: rest2 => (.NEQ, "", rest2)
      | _ => (.ILLEGAL, ⟨[c]⟩, rest)
    else if c = '<' then
      match rest with
      | '=' :: rest2 => (.LTE, "", rest2)
      | _ => (.LT, "", rest)
    else if c = '>' then
      match rest with
      | '=' :: rest2 => (.GTE, "", rest2)
      | _ => (.GT, "", rest)
    else if c = '+' then (.ADD, "", rest)
    else if c = '-' then (.SUB, "", rest)
    else if c = '*' then (.MUL, "", rest)
    else if c = '/' then (.DIV, "", rest)
    else if c = ',' then (.COMMA, "", rest)
    else if c = ';' then (.SEMICOLON, "", rest)
    else if c = '(' then (.LPAREN, "", rest)
    else if c = ')' then (.RPAREN, "", rest)
    else if c = '.' then (.DOT, "", rest)
    else (.ILLEGAL, ⟨[c]⟩, rest)

/-- Position advance over consumed characters: newline starts a new line. -/
def advancePos (p : Pos) (cs : List Char) : Pos :=
  cs.foldl (fun q c => if c = Char.ofNat 10 then ⟨q.line + 1, 0⟩ else ⟨q.line, q.char + 1⟩) p

/-- Modelled from the spec: the token stream of an input, each token stamped
with the position of its first character, ending in an explicit EOF token. -/
def tokenizeLoop : Nat → List Char → Pos → List Tok → List Tok
  | 0, _, p, acc => acc ++ [⟨.EOF, p, ""⟩]
  | fuel + 1, cs, p, acc =>
    match cs with
    | [] => acc ++ [⟨.EOF, p, ""⟩]
    | _ =>
      match scanOne cs with
      | (tok, lit, rest) =>
        let consumed := cs.take (cs.length - rest.length)
        tokenizeLoop fuel rest (advancePos p consumed) (acc ++ [⟨tok, p, lit⟩])

/-- Token stream of a query string. -/
def tokenize (s : String) : List Tok :=
  tokenizeLoop (s.length + 1) s.data ⟨0, 0⟩ []

/-- ParseQuery on a token stream with ample fuel for the source loops. -/
def parseQueryToks (ts : List Tok) : Except ParseError (Query × List Tok) :=
  ParseQuery (2 * ts.length + 16) ts

/-- ParseExpr on a token stream with ample fuel for the source loops. -/
def parseExprToks (ts : List Tok) : Except ParseError (Expr × List Tok) :=
  parseExpr (2 * ts.length + 16) ts

/-- ParseQuery parses a query string (parser.go 33-34), through the
spec-modelled scanner. -/
def ParseQueryStr (s : String) : Except ParseError Query :=
  match parseQueryToks (tokenize s) with
  | .ok (q, _) => .ok q
  | .error e => .error e

/-- ParseExpr parses an expression string (parser.go 36-37), through the
spec-modelled scanner. -/
def ParseExprStr (s : String) : Except ParseError Expr :=
  match parseExprToks (tokenize s) with
  | .ok (e, _) => .ok e
  | .error e => .error e

/-- Whether a parse result is a success. -/
def resOk {α : Type} : Except ParseError α → Bool
  | .ok _ => true
  | .error _ => false

/-- The found token text of a parse failure, if any. -/
def errFound {α : Type} : Except ParseError α → Option String
  | .ok _ => none
  | .error e => some e.found

/-- The expected names of a parse failure, if any. -/
def errExpected {α : Type} : Except ParseError α → Option (List String)
  | .ok _ => none
  | .error e => some e.expected

/-- The message of a parse failure, if any. -/
def errMessage {α : Type} : Except ParseError α → Option String
  | .ok _ => none
  | .error e => some e.message

/-- A token triple without literal, at position zero (for token-level inputs). -/
def tk (t : Token) : Tok := ⟨t, ⟨0, 0⟩, ""⟩

/-- An IDENT token carrying a literal, at position zero. -/
def identTok (s : String) : Tok := ⟨.IDENT, ⟨0, 0⟩, s⟩

/-- A NUMBER token carrying a literal, at position zero. -/
def numTok (s : String) : Tok := ⟨.NUMBER, ⟨0, 0⟩, s⟩

/-- A DURATION_VAL token carrying a literal, at position zero. -/
def durTok (s : String) : Tok := ⟨.DURATION_VAL, ⟨0, 0⟩, s⟩

/-- A whitespace token, as the scanner emits for a blank. -/
def wsTok : Tok := ⟨.WS, ⟨0, 0⟩, " "⟩

/-- Insertion of a token before position i of a token list. -/
def insertAt : Nat → Tok → List Tok → List Tok
  | 0, t, ts => t :: ts
  | _ + 1, t, [] => [t]
  | n + 1, t, x :: ts => x :: insertAt n t ts

/-- The twelve binary operator tokens. -/
def opTokens : List Token :=
  [.ADD, .SUB, .MUL, .DIV, .EQ, .NEQ, .LT, .LTE, .GT, .GTE, .AND, .OR]

mutual

/-- The operator-precedence law on expression trees, as the claim states it:
no binary node has a non-parenthesized binary child of strictly lower
precedence, and a right child of equal precedence is forbidden because equal
precedence associates to the left. -/
def precRespects : Expr → Bool
  | .binary l op r =>
    precRespects l && precRespects r &&
    (match l with
     | .binary _ lop _ => decide (op.precedence ≤ lop.precedence)
     | _ => true) &&
    (match r with
     | .binary _ rop _ => decide (op.precedence < rop.precedence)
     | _ => true)
  | .paren e => precRespects e
  | .call _ args => precRespectsList args
  | _ => true

/-- The precedence law over a list of argument expressions. -/
def precRespectsList : List Expr → Bool
  | [] => true
  | e :: es => precRespects e && precRespectsList es

end

/-- Whether parsing the three-operand token form a op1 b op2 c yields a tree
satisfying the precedence law. -/
def c2Check (op1 op2 : Token) : Bool :=
  match parseExprToks [identTok "a", tk op1, identTok "b", tk op2, identTok "c"] with
  | .ok (e, _) => precRespects e
  | .error _ => false

/-- Whether parsing the two-operand token form a op b yields a tree
satisfying the precedence law. -/
def c2Check1 (op : Token) : Bool :=
  match parseExprToks [identTok "a", tk op, identTok "b"] with
  | .ok (e, _) => precRespects e
  | .error _ => false

/-- Token form of SELECT a FROM b WHERE c = 1 LIMIT 2 with no whitespace
tokens: every lookahead in its parse skips whitespace. -/
def c3Toks1 : List Tok :=
  [tk .SELECT, identTok "a", tk .FROM, identTok "b", tk .WHERE,
   identTok "c", tk .EQ, numTok "1", tk .LIMIT, numTok "2"]

/-- Token form of SELECT f(x) FROM m with no whitespace tokens; position 2 is
the boundary between the identifier f and the left parenthesis, where the
parser scans without skipping whitespace. -/
def c3Toks2 : List Tok :=
  [tk .SELECT, identTok "f", tk .LPAREN, identTok "x", tk .RPAREN, tk .FROM, identTok "m"]

/-- C1: evaluation at the failing input.  SELECT value FROM cpu parses to one
statement, but appending the trailing semicolon does not parse to the same
statements: it fails with found EOF, expected SELECT, because the ParseQuery
loop (parser.go 49-64) unconditionally parses another statement after every
semicolon. -/
theorem c1_trailing_semicolon_rejected :
    ParseQueryStr "SELECT value FROM cpu" =
      .ok ⟨[.select { fields := [⟨.varRef "value", ""⟩], source := some (.meas ⟨"cpu"⟩) }]⟩ ∧
    resOk (ParseQueryStr "SELECT value FROM cpu;") = false ∧
    errFound (ParseQueryStr "SELECT value FROM cpu;") = some "EOF" ∧
    errExpected (ParseQueryStr "SELECT value FROM cpu;") = some ["SELECT"] ∧
    ParseQuery 40 [tk .SELECT, identTok "a", tk .FROM, identTok "b"] =
      .ok (⟨[.select { fields := [⟨.varRef "a", ""⟩], source := some (.meas ⟨"b"⟩) }]⟩, []) ∧
    errExpected (ParseQuery 40
        [tk .SELECT, identTok "a", tk .FROM, identTok "b", tk .SEMICOLON]) =
      some ["SELECT"] :=
  ⟨rfl, rfl, rfl, rfl, rfl, rfl⟩

/-- C2 counterexample: the parenthesis-free input a OR b + c * d is accepted
by ParseExpr, and the resulting tree places the ADD node under the MUL node,
violating the claimed precedence law. -/
theorem c2_precedence_counterexample :
    ParseExprStr "a OR b + c * d" =
      .ok (.binary (.varRef "a") .OR
            (.binary (.binary (.varRef "b") .ADD (.varRef "c")) .MUL (.varRef "d"))) ∧
    precRespects (.binary (.varRef "a") .OR
            (.binary (.binary (.varRef "b") .ADD (.varRef "c")) .MUL (.varRef "d"))) = false :=
  ⟨rfl, rfl⟩

/-- C2 amended: for parenthesis-free inputs with at most two binary operators
over simple operands, ParseExpr accepts the input and the resulting tree
respects operator precedence with left association at equal precedence; with
three or more operators the single rotation of ParseExpr can violate the law. -/
theorem c2_amended_precedence_two_operators :
    (opTokens.all fun op1 => opTokens.all fun op2 => c2Check op1 op2) = true ∧
    (opTokens.all fun op => c2Check1 op) = true :=
  ⟨rfl, rfl⟩

/-- C3 counterexample: a single blank between the identifier f and the left
parenthesis changes the parse of SELECT f(x) FROM m from a successful
function-call field to a failure, because parseUnaryExpr scans the token
after an identifier without skipping whitespace (parser.go 1518). -/
theorem c3_whitespace_counterexample :
    ParseQueryStr "SELECT f(x) FROM m" =
      .ok ⟨[.select { fields := [⟨.call "f" [.varRef "x"], ""⟩], source := some (.meas ⟨"m"⟩) }]⟩ ∧
    resOk (ParseQueryStr "SELECT f (x) FROM m") = false :=
  ⟨rfl, rfl⟩

/-- C3 amended: inserting a whitespace token between tokens preserves the
parse result at every boundary where the parser scans with whitespace
skipping; it can change the result exactly at the raw-scan lookaheads, such
as between an identifier and a following left parenthesis (position 2 of the
SELECT f(x) FROM m token form). -/
theorem c3_amended_ws_insensitivity :
    (∀ i, i ≤ 10 → parseQueryToks (insertAt i wsTok c3Toks1) = parseQueryToks c3Toks1) ∧
    (∀ i, i ≤ 7 → i ≠ 2 → parseQueryToks (insertAt i wsTok c3Toks2) = parseQueryToks c3Toks2) ∧
    parseQueryToks (insertAt 2 wsTok c3Toks2) ≠ parseQueryToks c3Toks2 := by
  refine ⟨?_, ?_, ?_⟩
  · intro i hi
    interval_cases i <;> rfl
  · intro i hi hne
    interval_cases i <;> first | rfl | exact absurd rfl hne
  · intro h
    have h1 : resOk (parseQueryToks (insertAt 2 wsTok c3Toks2)) = false := rfl
    rw [h] at h1
    have h2 : resOk (parseQueryToks c3Toks2) = true := rfl
    rw [h1] at h2
    exact Bool.noConfusion h2

/-- Witness for the C3 amended theorem at concrete insertion positions. -/
theorem c3_amended_ws_insensitivity_witness :
    parseQueryToks (insertAt 4 wsTok c3Toks1) = parseQueryToks c3Toks1 ∧
    parseQueryToks (insertAt 1 wsTok c3Toks2) = parseQueryToks c3Toks2 :=
  ⟨c3_amended_ws_insensitivity.1 4 (by decide),
   c3_amended_ws_insensitivity.2.1 1 (by decide) (by decide)⟩

/-- C9: ALTER RETENTION POLICY accepts repeated options without error and
records the last occurrence: a later DURATION or REPLICATION overwrites the
earlier value (parser.go 277-304). -/
theorem c9_alter_duplicate_options :
    ParseQueryStr "ALTER RETENTION POLICY p ON db DURATION 1h DURATION 2h" =
      .ok ⟨[.alterRetentionPolicy
             { name := "p", database := "db", duration := some 7200000000000 }]⟩ ∧
    ParseQueryStr "ALTER RETENTION POLICY p ON db REPLICATION 2 REPLICATION 3" =
      .ok ⟨[.alterRetentionPolicy
             { name := "p", database := "db", replication := some 3 }]⟩ ∧
    ParseQueryStr "ALTER RETENTION POLICY p ON db DURATION 1h REPLICATION 2 DURATION 3h" =
      .ok ⟨[.alterRetentionPolicy
             { name := "p", database := "db", duration := some 10800000000000,
               replication := some 2 }]⟩ :=
  ⟨rfl, rfl, rfl⟩

/-- C10: a LIMIT with an integral NUMBER beyond the signed 64-bit range is
not rejected: parseOptionalTokenAndInt discards the conversion error and
keeps the clamped maximum, so the statement parses with that limit
(parser.go 1371-1378). -/
theorem c10_limit_overflow_clamped :
    parseOptionalTokenAndInt .LIMIT [tk .LIMIT, numTok "9223372036854775808"] =
      .ok (9223372036854775807, []) ∧
    ParseQueryStr "SELECT a FROM b LIMIT 9223372036854775808" =
      .ok ⟨[.select
             { fields := [⟨.varRef "a", ""⟩], source := some (.meas ⟨"b"⟩),
               limit := 9223372036854775807 }]⟩ :=
  ⟨rfl, rfl⟩

/-- C8: the string rendering of a ParseError is the message followed by the
position when Message is non-empty, and otherwise the found token with the
expected names joined by commas followed by the position; the zero-based
line and char of Pos are each reported incremented by one. -/
theorem c8_parse_error_rendering :
    (∀ e : ParseError, e.message ≠ "" →
      e.errorString = e.message ++ " at line " ++ natRepr (e.pos.line + 1) ++
        ", char " ++ natRepr (e.pos.char + 1)) ∧
    (∀ e : ParseError, e.message = "" →
      e.errorString = "found " ++ e.found ++ ", expected " ++ strJoin e.expected ", " ++
        " at line " ++ natRepr (e.pos.line + 1) ++ ", char " ++ natRepr (e.pos.char + 1)) ∧
    ParseError.errorString { message := "boom", pos := ⟨0, 0⟩ } = "boom at line 1, char 1" ∧
    ParseError.errorString { found := "EOF", expected := [";", "EOF"], pos := ⟨2, 5⟩ } =
      "found EOF, expected ;, EOF at line 3, char 6" := by
  refine ⟨?_, ?_, rfl, rfl⟩
  · intro e h
    simp [ParseError.errorString, h]
  · intro e h
    simp [ParseError.errorString, h]

/-- Witness for the C8 rendering theorem at concrete errors. -/
theorem c8_parse_error_rendering_witness :
    ParseError.errorString { message := "m", found := "", expected := [], pos := ⟨1, 2⟩ } =
      "m at line 2, char 3" ∧
    ParseError.errorString { message := "", found := "x", expected := ["a", "b"], pos := ⟨0, 0⟩ } =
      "found x, expected a, b at line 1, char 1" :=
  ⟨c8_parse_error_rendering.1 ⟨"m", "", [], ⟨1, 2⟩⟩ (by decide),
   c8_parse_error_rendering.2.1 ⟨"", "x", ["a", "b"], ⟨0, 0⟩⟩ (by decide)⟩


theorem isDigitChar_digitChar (k : Nat) : isDigitChar (digitChar k) = true := by
  unfold digitChar
  split <;> decide

theorem digitVal_digitChar : ∀ d < 10, digitVal (digitChar d) = some d := by decide

theorem natDigits_ne_nil (fuel n : Nat) : natDigits (fuel + 1) n ≠ [] := by
  unfold natDigits
  split
  · simp
  · simp

theorem natDigits_mem_digit (fuel : Nat) : ∀ n c, c ∈ natDigits fuel n → isDigitChar c = true := by
  induction fuel with
  | zero => intro n c hc; simp [natDigits] at hc
  | succ fuel ih =>
    intro n c hc
    unfold natDigits at hc
    split at hc
    · simp at hc
      subst hc
      exact isDigitChar_digitChar n
    · rw [List.mem_append] at hc
      rcases hc with hc | hc
      · exact ih _ _ hc
      · simp at hc
        subst hc
        exact isDigitChar_digitChar (n % 10)

theorem getLastD_natDigits (fuel n : Nat) :
    isDigitChar ((natDigits (fuel + 1) n).getLastD ' ') = true := by
  unfold natDigits
  split
  · exact isDigitChar_digitChar n
  · rw [List.getLastD_concat]
    exact isDigitChar_digitChar (n % 10)

theorem parseNatAux_append_some (l1 l2 : List Char) :
    ∀ acc a, parseNatAux l1 acc = some a →
      parseNatAux (l1 ++ l2) acc = parseNatAux l2 a := by
  induction l1 with
  | nil =>
    intro acc a h
    have h2 : some acc = some a := h
    injection h2 with h3
    subst h3
    rfl
  | cons c cs ih =>
    intro acc a h
    rw [List.cons_append]
    simp only [parseNatAux] at h ⊢
    cases hdv : digitVal c with
    | some d =>
      simp only [hdv] at h ⊢
      exact ih _ _ h
    | none =>
      simp only [hdv] at h
      exact absurd h (by simp)

theorem parseNatAux_natDigits :
    ∀ fuel n acc, n ≤ fuel →
      parseNatAux (natDigits (fuel + 1) n) acc =
        some (acc * 10 ^ (natDigits (fuel + 1) n).length + n) := by
  intro fuel
  induction fuel with
  | zero =>
    intro n acc hn
    interval_cases n
    simp [natDigits, parseNatAux, digitVal, isDigitChar, digitChar]
    omega
  | succ fuel ih =>
    intro n acc hn
    by_cases h10 : n < 10
    · unfold natDigits
      rw [if_pos h10]
      unfold parseNatAux
      rw [digitVal_digitChar n h10]
      show some (10 * acc + n) = _
      simp [pow_one]
      omega
    · unfold natDigits
      rw [if_neg h10]
      have hdiv : n / 10 ≤ fuel := by
        have : n / 10 < n := Nat.div_lt_self (by omega) (by omega)
        omega
      rw [parseNatAux_append_some _ _ acc _ (ih (n / 10) acc hdiv)]
      unfold parseNatAux
      rw [digitVal_digitChar (n % 10) (Nat.mod_lt n (by omega))]
      show some (10 * (acc * 10 ^ (natDigits (fuel + 1) (n / 10)).length + n / 10) + n % 10) = _
      rw [List.length_append]
      simp only [List.length_cons, List.length_nil, Nat.zero_add]
      congr 1
      calc 10 * (acc * 10 ^ (natDigits (fuel + 1) (n / 10)).length + n / 10) + n % 10
          = acc * (10 ^ (natDigits (fuel + 1) (n / 10)).length * 10) +
              (10 * (n / 10) + n % 10) := by ring
        _ = acc * 10 ^ ((natDigits (fuel + 1) (n / 10)).length + 1) + n := by
              rw [Nat.div_add_mod, pow_succ]


theorem parseNatAux_natRepr (n : Nat) :
    parseNatAux (natDigits (n + 1) n) 0 = some n := by
  rw [parseNatAux_natDigits n n 0 (le_refl n)]
  simp

theorem digit_ne_minus {c : Char} (h : isDigitChar c = true) : c ≠ '-' := by
  intro hc
  subst hc
  exact absurd h (by decide)

theorem digit_ne_plus {c : Char} (h : isDigitChar c = true) : c ≠ '+' := by
  intro hc
  subst hc
  exact absurd h (by decide)

theorem goParseInt_digits (l : List Char) (hne : l ≠ [])
    (hdig : ∀ c ∈ l, isDigitChar c = true)
    (v : Nat) (hv : parseNatAux l 0 = some v) (hle : (v : Int) ≤ maxInt64) :
    goParseInt ⟨l⟩ = .ok (v : Int) := by
  cases l with
  | nil => exact absurd rfl hne
  | cons c rest =>
    have hcd : isDigitChar c = true := hdig c (List.mem_cons_self c rest)
    unfold goParseInt
    change (if c = '-' then _ else if c = '+' then _ else
      match parseNatAux (c :: rest) 0 with
      | none => IntScan.bad
      | some v => if (v : Int) ≤ maxInt64 then IntScan.ok (v : Int)
                  else IntScan.rangeOver maxInt64) = IntScan.ok (v : Int)
    rw [if_neg (digit_ne_minus hcd), if_neg (digit_ne_plus hcd)]
    simp only [hv]
    rw [if_pos hle]

theorem goParseInt_natRepr (n : Nat) (hn : (n : Int) ≤ maxInt64) :
    goParseInt (natRepr n) = .ok (n : Int) :=
  goParseInt_digits (natDigits (n + 1) n) (natDigits_ne_nil n n)
    (fun c hc => natDigits_mem_digit (n + 1) n c hc)
    n (parseNatAux_natRepr n) hn

theorem contains_iff_mem (l : List Char) (c : Char) : l.contains c = true ↔ c ∈ l := by
  simp [List.contains]

theorem natRepr_no_dot (n : Nat) : containsChar (natRepr n) '.' = false := by
  cases h : containsChar (natRepr n) '.' with
  | false => rfl
  | true =>
    have hm : '.' ∈ natDigits (n + 1) n := (contains_iff_mem _ _).1 h
    have hdig : isDigitChar '.' = true := natDigits_mem_digit (n + 1) n '.' hm
    exact absurd hdig (by decide)


theorem intRepr_natCast (k : Nat) : intRepr (k : Int) = natRepr k := by
  unfold intRepr
  rw [if_neg (by omega), Int.toNat_natCast]

theorem lastTwoIs_concat_ne (l : List Char) (u : Char) (hu : (u == 's') = false) :
    lastTwoIs (l ++ [u]) 'm' 's' = false := by
  unfold lastTwoIs
  rw [List.reverse_append]
  cases hr : l.reverse with
  | nil => rfl
  | cons y ys =>
    show ((y == 'm') && (u == 's')) = false
    rw [hu, Bool.and_false]

theorem digit_beq_m_false {y : Char} (hy : isDigitChar y = true) : (y == 'm') = false := by
  cases hb : y == 'm' with
  | false => rfl
  | true =>
    have : y = 'm' := by exact eq_of_beq hb
    subst this
    exact absurd hy (by decide)

theorem lastTwoIs_concat_s (l : List Char) (hdig : ∀ c ∈ l, isDigitChar c = true) :
    lastTwoIs (l ++ ['s']) 'm' 's' = false := by
  unfold lastTwoIs
  rw [List.reverse_append]
  cases hr : l.reverse with
  | nil => rfl
  | cons y ys =>
    have hy : y ∈ l := by
      rw [← List.mem_reverse, hr]
      exact List.mem_cons_self y ys
    show ((y == 'm') && ('s' == 's')) = false
    rw [digit_beq_m_false (hdig y hy), Bool.false_and]




theorem parseDuration_concat (k : Nat) (u : Char) (hk : (k : Int) ≤ maxInt64)
    (hu : isDigitChar u = false)
    (hms : lastTwoIs (natDigits (k + 1) k ++ [u]) 'm' 's' = false) :
    ParseDuration (natRepr k ++ ⟨[u]⟩) =
      (if (⟨[u]⟩ : String) = "u" ∨ (⟨[u]⟩ : String) = "µ" then .ok ((k : Int) * microsecond)
       else if (⟨[u]⟩ : String) = "ms" then .ok ((k : Int) * millisecond)
       else if (⟨[u]⟩ : String) = "s" then .ok ((k : Int) * second)
       else if (⟨[u]⟩ : String) = "m" then .ok ((k : Int) * minute)
       else if (⟨[u]⟩ : String) = "h" then .ok ((k : Int) * hour)
       else if (⟨[u]⟩ : String) = "d" then .ok ((k : Int) * (24 * hour))
       else if (⟨[u]⟩ : String) = "w" then .ok ((k : Int) * (7 * 24 * hour))
       else .error ()) := by
  have hdata : (natRepr k ++ (⟨[u]⟩ : String)).data = natDigits (k + 1) k ++ [u] := by
    rw [String.data_append]
    rfl
  have hL : 0 < (natDigits (k + 1) k).length := List.length_pos.mpr (natDigits_ne_nil k k)
  unfold ParseDuration
  rw [hdata]
  rw [if_neg (by simp only [List.length_append, List.length_cons, List.length_nil]; omega)]
  rw [if_neg (by simp only [List.length_append, List.length_cons, List.length_nil]; omega)]
  rw [List.getLastD_concat]
  rw [if_neg (by rw [hu]; simp)]
  rw [hms, Bool.and_false]
  rw [if_neg (by simp)]
  rw [List.dropLast_concat]
  have hgp : goParseInt ⟨natDigits (k + 1) k⟩ = .ok (k : Int) := goParseInt_natRepr k hk
  simp only [hgp]


theorem parseDuration_ms (k : Nat) (hk : (k : Int) ≤ maxInt64) :
    ParseDuration (natRepr k ++ "ms") = .ok ((k : Int) * millisecond) := by
  have hdata : (natRepr k ++ "ms").data = natDigits (k + 1) k ++ ['m', 's'] := by
    rw [String.data_append]
    rfl
  have hL : 0 < (natDigits (k + 1) k).length := List.length_pos.mpr (natDigits_ne_nil k k)
  have hsplit : natDigits (k + 1) k ++ ['m', 's'] = (natDigits (k + 1) k ++ ['m']) ++ ['s'] := by
    simp
  have hlt : lastTwoIs (natDigits (k + 1) k ++ ['m', 's']) 'm' 's' = true := by
    unfold lastTwoIs
    rw [List.reverse_append]
    rfl
  unfold ParseDuration
  rw [hdata]
  rw [if_neg (by simp only [List.length_append, List.length_cons, List.length_nil]; omega)]
  rw [if_neg (by simp only [List.length_append, List.length_cons, List.length_nil]; omega)]
  rw [hsplit, List.getLastD_concat]
  rw [if_neg (by decide)]
  rw [← hsplit, hlt, Bool.and_true]
  rw [if_pos (by simp only [List.length_append, List.length_cons, List.length_nil,
        decide_eq_true_eq]; omega)]
  rw [hsplit, List.dropLast_concat, List.dropLast_concat]
  have hgp : goParseInt ⟨natDigits (k + 1) k⟩ = .ok (k : Int) := goParseInt_natRepr k hk
  simp only [hgp]
  rfl

theorem parseDuration_bare (k : Nat) (hk : (k : Int) ≤ maxInt64) :
    ParseDuration (natRepr k) = .ok ((k : Int) * microsecond) := by
  have hdata : (natRepr k).data = natDigits (k + 1) k := rfl
  have hL : 0 < (natDigits (k + 1) k).length := List.length_pos.mpr (natDigits_ne_nil k k)
  have hgp : goParseInt (natRepr k) = .ok (k : Int) := goParseInt_natRepr k hk
  unfold ParseDuration
  rw [hdata]
  rw [if_neg (by omega)]
  by_cases hlen : (natDigits (k + 1) k).length = 1
  · rw [if_pos hlen]
    simp only [hgp]
  · rw [if_neg hlen]
    rw [if_pos (getLastD_natDigits k k)]
    simp only [hgp]
    rfl


/-- C4 amended: for every non-negative duration d within the 64-bit range
that is a whole number of microseconds, ParseDuration of FormatDuration of d
succeeds and returns exactly d; durations with sub-microsecond remainder are
truncated by the final branch of FormatDuration, so the round trip fails for
them. -/
theorem c4_amended_roundtrip_microseconds (d : Int) (h0 : 0 ≤ d) (hle : d ≤ maxInt64)
    (hdvd : (1000 : Int) ∣ d) : ParseDuration (FormatDuration d) = .ok d := by
  obtain ⟨m, rfl⟩ := Int.eq_ofNat_of_zero_le h0
  have hmle : ∀ N : Nat, ((m / N : Nat) : Int) ≤ maxInt64 := by
    intro N
    calc ((m / N : Nat) : Int) ≤ (m : Int) := by exact_mod_cast Nat.div_le_self m N
      _ ≤ maxInt64 := hle
  have hdigs : ∀ c ∈ natDigits (m / 1000000000 + 1) (m / 1000000000), isDigitChar c = true :=
    fun c hc => natDigits_mem_digit _ _ c hc
  unfold FormatDuration
  split_ifs with h0' hw hd' hh hm' hs hms
  · rw [show m = 0 from by exact_mod_cast h0']
    rfl
  · -- week
    have hdiv : (604800000000000 : Nat) ∣ m := by
      have h2 : ((m % 604800000000000 : Nat) : Int) = 0 := hw
      exact Nat.dvd_of_mod_eq_zero (by exact_mod_cast h2)
    rw [show ((m : Int)).tdiv (7 * 24 * hour) = ((m / 604800000000000 : Nat) : Int) from rfl,
        intRepr_natCast]
    rw [show ("w" : String) = (⟨['w']⟩ : String) from rfl]
    rw [parseDuration_concat _ _ (hmle _) (by decide) (lastTwoIs_concat_ne _ _ (by decide))]
    show Except.ok (((m / 604800000000000 : Nat) : Int) * (7 * 24 * hour)) = _
    congr 1
    rw [show (7 * 24 * hour : Int) = ((604800000000000 : Nat) : Int) from rfl]
    rw [← Int.natCast_mul, Nat.div_mul_cancel hdiv]
  · -- day
    have hdiv : (86400000000000 : Nat) ∣ m := by
      have h2 : ((m % 86400000000000 : Nat) : Int) = 0 := hd'
      exact Nat.dvd_of_mod_eq_zero (by exact_mod_cast h2)
    rw [show ((m : Int)).tdiv (24 * hour) = ((m / 86400000000000 : Nat) : Int) from rfl,
        intRepr_natCast]
    rw [show ("d" : String) = (⟨['d']⟩ : String) from rfl]
    rw [parseDuration_concat _ _ (hmle _) (by decide) (lastTwoIs_concat_ne _ _ (by decide))]
    show Except.ok (((m / 86400000000000 : Nat) : Int) * (24 * hour)) = _
    congr 1
    rw [show (24 * hour : Int) = ((86400000000000 : Nat) : Int) from rfl]
    rw [← Int.natCast_mul, Nat.div_mul_cancel hdiv]
  · -- hour
    have hdiv : (3600000000000 : Nat) ∣ m := by
      have h2 : ((m % 3600000000000 : Nat) : Int) = 0 := hh
      exact Nat.dvd_of_mod_eq_zero (by exact_mod_cast h2)
    rw [show ((m : Int)).tdiv hour = ((m / 3600000000000 : Nat) : Int) from rfl,
        intRepr_natCast]
    rw [show ("h" : String) = (⟨['h']⟩ : String) from rfl]
    rw [parseDuration_concat _ _ (hmle _) (by decide) (lastTwoIs_concat_ne _ _ (by decide))]
    show Except.ok (((m / 3600000000000 : Nat) : Int) * hour) = _
    congr 1
    rw [show (hour : Int) = ((3600000000000 : Nat) : Int) from rfl]
    rw [← Int.natCast_mul, Nat.div_mul_cancel hdiv]
  · -- minute
    have hdiv : (60000000000 : Nat) ∣ m := by
      have h2 : ((m % 60000000000 : Nat) : Int) = 0 := hm'
      exact Nat.dvd_of_mod_eq_zero (by exact_mod_cast h2)
    rw [show ((m : Int)).tdiv minute = ((m / 60000000000 : Nat) : Int) from rfl,
        intRepr_natCast]
    rw [show ("m" : String) = (⟨['m']⟩ : String) from rfl]
    rw [parseDuration_concat _ _ (hmle _) (by decide) (lastTwoIs_concat_ne _ _ (by decide))]
    show Except.ok (((m / 60000000000 : Nat) : Int) * minute) = _
    congr 1
    rw [show (minute : Int) = ((60000000000 : Nat) : Int) from rfl]
    rw [← Int.natCast_mul, Nat.div_mul_cancel hdiv]
  · -- second
    have hdiv : (1000000000 : Nat) ∣ m := by
      have h2 : ((m % 1000000000 : Nat) : Int) = 0 := hs
      exact Nat.dvd_of_mod_eq_zero (by exact_mod_cast h2)
    rw [show ((m : Int)).tdiv second = ((m / 1000000000 : Nat) : Int) from rfl,
        intRepr_natCast]
    rw [show ("s" : String) = (⟨['s']⟩ : String) from rfl]
    rw [parseDuration_concat _ _ (hmle _) (by decide)
        (lastTwoIs_concat_s _ (fun c hc => natDigits_mem_digit _ _ c hc))]
    show Except.ok (((m / 1000000000 : Nat) : Int) * second) = _
    congr 1
    rw [show (second : Int) = ((1000000000 : Nat) : Int) from rfl]
    rw [← Int.natCast_mul, Nat.div_mul_cancel hdiv]
  · -- millisecond
    have hdiv : (1000000 : Nat) ∣ m := by
      have h2 : ((m % 1000000 : Nat) : Int) = 0 := hms
      exact Nat.dvd_of_mod_eq_zero (by exact_mod_cast h2)
    rw [show ((m : Int)).tdiv millisecond = ((m / 1000000 : Nat) : Int) from rfl,
        intRepr_natCast]
    rw [parseDuration_ms _ (hmle _)]
    congr 1
    rw [show (millisecond : Int) = ((1000000 : Nat) : Int) from rfl]
    rw [← Int.natCast_mul, Nat.div_mul_cancel hdiv]
  · -- microseconds, no suffix
    have hdiv : (1000 : Nat) ∣ m := by exact_mod_cast hdvd
    rw [show ((m : Int)).tdiv microsecond = ((m / 1000 : Nat) : Int) from rfl,
        intRepr_natCast]
    rw [parseDuration_bare _ (hmle _)]
    congr 1
    rw [show (microsecond : Int) = ((1000 : Nat) : Int) from rfl]
    rw [← Int.natCast_mul, Nat.div_mul_cancel hdiv]

/-- Witness for the C4 amended round trip at one hour. -/
theorem c4_amended_roundtrip_microseconds_witness :
    ParseDuration (FormatDuration 3600000000000) = .ok 3600000000000 :=
  c4_amended_roundtrip_microseconds 3600000000000 (by decide) (by decide)
    ⟨3600000000, by decide⟩

/-- C4 counterexample: the one-nanosecond duration breaks the round trip:
FormatDuration truncates it to the microsecond count 0, which parses back to
the zero duration, not to 1. -/
theorem c4_roundtrip_counterexample :
    FormatDuration 1 = "0" ∧ ParseDuration "0" = .ok 0 ∧
    ParseDuration (FormatDuration 1) ≠ .ok 1 := by
  refine ⟨rfl, rfl, ?_⟩
  intro h
  have h2 : ParseDuration (FormatDuration 1) = .ok 0 := rfl
  rw [h] at h2
  exact absurd (Except.ok.inj h2) (by decide)


theorem pbind_ok {α β : Type} (m : Except ParseError (α × List Tok))
    (f : α → List Tok → Except ParseError (β × List Tok)) (b : β) (rest : List Tok)
    (h : pbind m f = .ok (b, rest)) :
    ∃ a ts, m = .ok (a, ts) ∧ f a ts = .ok (b, rest) := by
  cases m with
  | error e => simp [pbind] at h
  | ok p =>
    obtain ⟨a, ts⟩ := p
    exact ⟨a, ts, rfl, h⟩

theorem parseInt_ok_bounds (lo hi : Int) (ts rest : List Tok) (n : Int)
    (h : parseInt lo hi ts = .ok (n, rest)) : lo ≤ n ∧ n ≤ hi := by
  unfold parseInt at h
  split at h
  repeat' split at h
  all_goals first
    | exact (Except.noConfusion h)
    | (simp only [Except.ok.injEq, Prod.mk.injEq] at h
       obtain ⟨rfl, rfl⟩ := h
       omega)

theorem parseOptionalTokenAndInt_ok (t : Token) (ts rest : List Tok) (n : Int)
    (h : parseOptionalTokenAndInt t ts = .ok (n, rest)) :
    (n = 0 ∧ (scanIgnoreWhitespace ts).1.tok ≠ t) ∨
      (1 ≤ n ∧ (scanIgnoreWhitespace ts).1.tok = t) := by
  unfold parseOptionalTokenAndInt at h
  split at h
  next t0 ts1 heq =>
  rw [heq]
  dsimp only
  repeat' split at h
  all_goals first
    | exact (Except.noConfusion h)
    | (simp only [Except.ok.injEq, Prod.mk.injEq] at h
       obtain ⟨rfl, rfl⟩ := h
       first
       | exact Or.inl ⟨rfl, by assumption⟩
       | exact Or.inr ⟨by omega, not_not.mp (by assumption)⟩)

theorem goParseUint32_le (s : String) (n : Nat) (h : goParseUint32 s = some n) :
    n ≤ 4294967295 := by
  unfold goParseUint32 at h
  repeat' split at h
  all_goals first
    | exact (Option.noConfusion h)
    | (injection h with h2; omega)

theorem parseUInt32_ok (ts rest : List Tok) (n : Nat)
    (h : parseUInt32 ts = .ok (n, rest)) :
    n ≤ 4294967295 ∧ (scanIgnoreWhitespace ts).1.tok = .NUMBER ∧
      goParseUint32 (scanIgnoreWhitespace ts).1.lit = some n ∧
      rest = (scanIgnoreWhitespace ts).2 := by
  unfold parseUInt32 at h
  split at h
  next t0 ts1 heq =>
  rw [heq]
  dsimp only
  repeat' split at h
  all_goals first
    | exact (Except.noConfusion h)
    | (simp only [Except.ok.injEq, Prod.mk.injEq] at h
       obtain ⟨rfl, rfl⟩ := h
       refine ⟨goParseUint32_le _ _ (by assumption), not_not.mp (by assumption), by assumption, rfl⟩)


theorem parseCreateRetentionPolicy_ok_replication (ts rest : List Tok)
    (stmt : CreateRetentionPolicyStatement)
    (h : parseCreateRetentionPolicyStatement ts = .ok (stmt, rest)) :
    1 ≤ stmt.replication ∧ stmt.replication ≤ 2147483647 := by
  unfold parseCreateRetentionPolicyStatement at h
  obtain ⟨name, ts1, _, h⟩ := pbind_ok _ _ _ _ h
  try dsimp only at h
  split at h
  · exact (Except.noConfusion h)
  · obtain ⟨db, ts3, _, h⟩ := pbind_ok _ _ _ _ h
    try dsimp only at h
    split at h
    · exact (Except.noConfusion h)
    · obtain ⟨d, ts5, _, h⟩ := pbind_ok _ _ _ _ h
      try dsimp only at h
      split at h
      · exact (Except.noConfusion h)
      · obtain ⟨n, ts7, hInt, h⟩ := pbind_ok _ _ _ _ h
        try dsimp only at h
        have hb := parseInt_ok_bounds _ _ _ _ _ hInt
        split at h
        · simp only [Except.ok.injEq, Prod.mk.injEq] at h
          obtain ⟨rfl, rfl⟩ := h
          simpa using hb
        · simp only [Except.ok.injEq, Prod.mk.injEq] at h
          obtain ⟨rfl, rfl⟩ := h
          simpa using hb

theorem parseSelectStatement_ok_limit_offset (fuel : Nat) (tr : TargetRequirement)
    (ts rest : List Tok) (stmt : SelectStatement)
    (h : parseSelectStatement fuel tr ts = .ok (stmt, rest)) :
    (stmt.limit = 0 ∨ 1 ≤ stmt.limit) ∧ (stmt.offset = 0 ∨ 1 ≤ stmt.offset) := by
  unfold parseSelectStatement at h
  obtain ⟨fields, ts1, _, h⟩ := pbind_ok _ _ _ _ h
  try dsimp only at h
  obtain ⟨target, ts2, _, h⟩ := pbind_ok _ _ _ _ h
  try dsimp only at h
  split at h
  · exact (Except.noConfusion h)
  · obtain ⟨src, ts4, _, h⟩ := pbind_ok _ _ _ _ h
    try dsimp only at h
    obtain ⟨cond, ts5, _, h⟩ := pbind_ok _ _ _ _ h
    try dsimp only at h
    obtain ⟨dims, ts6, _, h⟩ := pbind_ok _ _ _ _ h
    try dsimp only at h
    obtain ⟨sorts, ts7, _, h⟩ := pbind_ok _ _ _ _ h
    try dsimp only at h
    obtain ⟨lim, ts8, hLim, h⟩ := pbind_ok _ _ _ _ h
    try dsimp only at h
    obtain ⟨off, ts9, hOff, h⟩ := pbind_ok _ _ _ _ h
    try dsimp only at h
    simp only [Except.ok.injEq, Prod.mk.injEq] at h
    obtain ⟨rfl, rfl⟩ := h
    have hl := parseOptionalTokenAndInt_ok _ _ _ _ hLim
    have ho := parseOptionalTokenAndInt_ok _ _ _ _ hOff
    constructor
    · rcases hl with ⟨h1, _⟩ | ⟨h1, _⟩
      · exact Or.inl h1
      · exact Or.inr h1
    · rcases ho with ⟨h1, _⟩ | ⟨h1, _⟩
      · exact Or.inl h1
      · exact Or.inr h1

theorem parseDropSeries_ok_shape (fuel : Nat) (ts rest : List Tok)
    (stmt : DropSeriesStatement)
    (h : parseDropSeriesStatement fuel ts = .ok (stmt, rest)) :
    (stmt.source ≠ none ∨ stmt.condition ≠ none) ∨
      (stmt.source = none ∧ stmt.condition = none ∧
        ∃ mid, parseUInt32 mid = .ok (stmt.seriesID, rest) ∧
          (scanIgnoreWhitespace mid).1.tok = .NUMBER ∧
          goParseUint32 (scanIgnoreWhitespace mid).1.lit = some stmt.seriesID ∧
          stmt.seriesID ≤ 4294967295) := by
  unfold parseDropSeriesStatement at h
  obtain ⟨src, ts1, _, h⟩ := pbind_ok _ _ _ _ h
  try dsimp only at h
  obtain ⟨cond, ts2, hc, h⟩ := pbind_ok _ _ _ _ h
  try dsimp only at h
  split at h
  · obtain ⟨sid, ts3, hU, h⟩ := pbind_ok _ _ _ _ h
    try dsimp only at h
    simp only [Except.ok.injEq, Prod.mk.injEq] at h
    obtain ⟨rfl, rfl⟩ := h
    have hguard : (cond.isNone && src.isNone) = true := by assumption
    rw [Bool.and_eq_true] at hguard
    obtain ⟨hcn, hsn⟩ := hguard
    rw [Option.isNone_iff_eq_none] at hcn hsn
    right
    subst hcn
    subst hsn
    have hfacts := parseUInt32_ok _ _ _ hU
    exact ⟨rfl, rfl, ts2, hU, hfacts.2.1, hfacts.2.2.1, hfacts.1⟩
  · simp only [Except.ok.injEq, Prod.mk.injEq] at h
    obtain ⟨rfl, rfl⟩ := h
    left
    have hguard : ¬((cond.isNone && src.isNone) = true) := by assumption
    rw [Bool.and_eq_true] at hguard
    rcases not_and_or.mp hguard with hg | hg
    · right
      simp only [Option.isNone_iff_eq_none] at hg
      simpa using hg
    · left
      simp only [Option.isNone_iff_eq_none] at hg
      simpa using hg


theorem parseInt_numTok (lo hi n : Int) (lit : String) (ts : List Tok)
    (hdot : containsChar lit '.' = false) (hint : goParseInt lit = .ok n)
    (h1 : lo ≤ n) (h2 : n ≤ hi) :
    parseInt lo hi (numTok lit :: ts) = .ok (n, ts) := by
  unfold parseInt
  rw [show scanIgnoreWhitespace (numTok lit :: ts) = (numTok lit, ts) from rfl]
  dsimp only
  rw [if_neg (by simp [numTok])]
  rw [if_neg (by rw [show (numTok lit).lit = lit from rfl, hdot]; simp)]
  rw [show (numTok lit).lit = lit from rfl, hint]
  dsimp only
  rw [if_neg (by omega)]

theorem parseCRP_skeleton (n : Nat) (h1 : 1 ≤ n) (h2 : n ≤ 2147483647) :
    parseCreateRetentionPolicyStatement
      [identTok "p", tk .ON, identTok "db", tk .DURATION, durTok "1h",
       tk .REPLICATION, numTok (natRepr n)] =
      .ok ({ name := "p", database := "db", duration := 3600000000000,
             replication := (n : Int) }, [eofTok]) := by
  have hstep : parseCreateRetentionPolicyStatement
      [identTok "p", tk .ON, identTok "db", tk .DURATION, durTok "1h",
       tk .REPLICATION, numTok (natRepr n)] =
      pbind (parseInt 1 2147483647 [numTok (natRepr n)]) (fun n2 ts =>
        match scanIgnoreWhitespace ts with
        | (t4, ts4) =>
          if t4.tok = .DEFAULT then
            .ok ({ name := "p", database := "db", duration := 3600000000000,
                   replication := n2, isDefault := true }, ts4)
          else
            .ok ({ name := "p", database := "db", duration := 3600000000000,
                   replication := n2 }, t4 :: ts4)) := rfl
  rw [hstep]
  rw [parseInt_numTok 1 2147483647 (n : Int) (natRepr n) [] (natRepr_no_dot n)
      (goParseInt_natRepr n (by simp only [maxInt64]; omega)) (by omega) (by omega)]
  rfl

/-- C5: CREATE RETENTION POLICY accepts a REPLICATION value n exactly when
1 ≤ n ≤ 2^31 − 1: every successfully parsed statement has Replication in
that interval, every decimal numeral n in the interval is accepted with
Replication = n, and the boundary values 0 and 2^31 are rejected with a
ParseError. -/
theorem c5_replication_bounds :
    (∀ ts rest stmt, parseCreateRetentionPolicyStatement ts = .ok (stmt, rest) →
      1 ≤ stmt.replication ∧ stmt.replication ≤ 2147483647) ∧
    (∀ n : Nat, 1 ≤ n → n ≤ 2147483647 →
      parseCreateRetentionPolicyStatement
        [identTok "p", tk .ON, identTok "db", tk .DURATION, durTok "1h",
         tk .REPLICATION, numTok (natRepr n)] =
        .ok ({ name := "p", database := "db", duration := 3600000000000,
               replication := (n : Int) }, [eofTok])) ∧
    errMessage (parseCreateRetentionPolicyStatement
        [identTok "p", tk .ON, identTok "db", tk .DURATION, durTok "1h",
         tk .REPLICATION, numTok "0"]) =
      some "invalid value 0: must be 1 <= n <= 2147483647" ∧
    errMessage (parseCreateRetentionPolicyStatement
        [identTok "p", tk .ON, identTok "db", tk .DURATION, durTok "1h",
         tk .REPLICATION, numTok "2147483648"]) =
      some "invalid value 2147483648: must be 1 <= n <= 2147483647" :=
  ⟨fun ts rest stmt h => parseCreateRetentionPolicy_ok_replication ts rest stmt h,
   fun n h1 h2 => parseCRP_skeleton n h1 h2, rfl, rfl⟩

/-- Witness for C5 at the replication value three. -/
theorem c5_replication_bounds_witness :
    parseCreateRetentionPolicyStatement
      [identTok "p", tk .ON, identTok "db", tk .DURATION, durTok "1h",
       tk .REPLICATION, numTok "3"] =
      .ok ({ name := "p", database := "db", duration := 3600000000000,
             replication := 3 }, [eofTok]) ∧
    1 ≤ ({ name := "p", database := "db", duration := 3600000000000,
           replication := 3 } : CreateRetentionPolicyStatement).replication ∧
    ({ name := "p", database := "db", duration := 3600000000000,
       replication := 3 } : CreateRetentionPolicyStatement).replication ≤ 2147483647 :=
  ⟨c5_replication_bounds.2.1 3 (by decide) (by decide),
   (c5_replication_bounds.1 _ _ _ (c5_replication_bounds.2.1 3 (by decide) (by decide))).1,
   (c5_replication_bounds.1 _ _ _ (c5_replication_bounds.2.1 3 (by decide) (by decide))).2⟩

/-- C6: DROP SERIES with neither FROM nor WHERE requires a NUMBER parsed as a
32-bit unsigned series id; a NUMBER beyond the unsigned 32-bit range is
rejected with a ParseError; and every successfully parsed DropSeriesStatement
has a Source or a Condition, or else its SeriesID was read from that required
NUMBER and fits in 32 bits. -/
theorem c6_drop_series :
    (∀ fuel ts rest stmt, parseDropSeriesStatement fuel ts = .ok (stmt, rest) →
      (stmt.source ≠ none ∨ stmt.condition ≠ none) ∨
        (stmt.source = none ∧ stmt.condition = none ∧
          ∃ mid, parseUInt32 mid = .ok (stmt.seriesID, rest) ∧
            (scanIgnoreWhitespace mid).1.tok = .NUMBER ∧
            goParseUint32 (scanIgnoreWhitespace mid).1.lit = some stmt.seriesID ∧
            stmt.seriesID ≤ 4294967295)) ∧
    resOk (parseDropSeriesStatement 40 [numTok "4294967296"]) = false ∧
    resOk (parseDropSeriesStatement 40 []) = false ∧
    errExpected (parseDropSeriesStatement 40 []) = some ["number"] ∧
    parseDropSeriesStatement 40 [numTok "42"] = .ok ({ seriesID := 42 }, []) ∧
    parseDropSeriesStatement 40 [numTok "4294967295"] =
      .ok ({ seriesID := 4294967295 }, []) :=
  ⟨fun fuel ts rest stmt h => parseDropSeries_ok_shape fuel ts rest stmt h,
   rfl, rfl, rfl, rfl, rfl⟩

/-- Witness for C6 at the bare series id 42. -/
theorem c6_drop_series_witness :
    (({ seriesID := 42 } : DropSeriesStatement).source ≠ none ∨
      ({ seriesID := 42 } : DropSeriesStatement).condition ≠ none) ∨
    (({ seriesID := 42 } : DropSeriesStatement).source = none ∧
      ({ seriesID := 42 } : DropSeriesStatement).condition = none ∧
      ∃ mid, parseUInt32 mid =
          .ok (({ seriesID := 42 } : DropSeriesStatement).seriesID, []) ∧
        (scanIgnoreWhitespace mid).1.tok = .NUMBER ∧
        goParseUint32 (scanIgnoreWhitespace mid).1.lit =
          some (({ seriesID := 42 } : DropSeriesStatement).seriesID) ∧
        ({ seriesID := 42 } : DropSeriesStatement).seriesID ≤ 4294967295) :=
  c6_drop_series.1 40 [numTok "42"] [] { seriesID := 42 } rfl

/-- C7: the Limit and Offset of a successfully parsed SelectStatement are
zero when the LIMIT or OFFSET clause is absent and at least one when
present; a NUMBER containing a dot is rejected with the fractional-parts
message, and a value below one is rejected. -/
theorem c7_limit_offset :
    (∀ t ts rest n, parseOptionalTokenAndInt t ts = .ok (n, rest) →
      (n = 0 ∧ (scanIgnoreWhitespace ts).1.tok ≠ t) ∨
        (1 ≤ n ∧ (scanIgnoreWhitespace ts).1.tok = t)) ∧
    (∀ fuel tr ts rest stmt, parseSelectStatement fuel tr ts = .ok (stmt, rest) →
      (stmt.limit = 0 ∨ 1 ≤ stmt.limit) ∧ (stmt.offset = 0 ∨ 1 ≤ stmt.offset)) ∧
    errMessage (ParseQueryStr "SELECT a FROM b LIMIT 1.5") =
      some "fractional parts not allowed in LIMIT" ∧
    errMessage (ParseQueryStr "SELECT a FROM b LIMIT 0") = some "LIMIT must be > 0" ∧
    errMessage (ParseQueryStr "SELECT a FROM b OFFSET 0") = some "OFFSET must be > 0" ∧
    ParseQueryStr "SELECT a FROM b LIMIT 7 OFFSET 2" =
      .ok ⟨[.select
             { fields := [⟨.varRef "a", ""⟩], source := some (.meas ⟨"b"⟩),
               limit := 7, offset := 2 }]⟩ :=
  ⟨fun t ts rest n h => parseOptionalTokenAndInt_ok t ts rest n h,
   fun fuel tr ts rest stmt h => parseSelectStatement_ok_limit_offset fuel tr ts rest stmt h,
   rfl, rfl, rfl, rfl⟩

/-- Witness for C7: the absent clause yields zero, and a parsed select has
limit and offset in range. -/
theorem c7_limit_offset_witness :
    (((0 : Int) = 0 ∧ (scanIgnoreWhitespace ([] : List Tok)).1.tok ≠ .LIMIT) ∨
      (1 ≤ (0 : Int) ∧ (scanIgnoreWhitespace ([] : List Tok)).1.tok = .LIMIT)) ∧
    ((({ fields := [⟨.varRef "a", ""⟩], source := some (.meas ⟨"b"⟩) } :
        SelectStatement).limit = 0 ∨
      1 ≤ ({ fields := [⟨.varRef "a", ""⟩], source := some (.meas ⟨"b"⟩) } :
        SelectStatement).limit) ∧
     (({ fields := [⟨.varRef "a", ""⟩], source := some (.meas ⟨"b"⟩) } :
        SelectStatement).offset = 0 ∨
      1 ≤ ({ fields := [⟨.varRef "a", ""⟩], source := some (.meas ⟨"b"⟩) } :
        SelectStatement).offset)) :=
  ⟨c7_limit_offset.1 .LIMIT [] [eofTok] 0 rfl,
   c7_limit_offset.2.1 40 .notRequired [identTok "a", tk .FROM, identTok "b"] [eofTok]
     { fields := [⟨.varRef "a", ""⟩], source := some (.meas ⟨"b"⟩) } rfl⟩

end InfluxQL
